import Mathlib

/-!
# libparistraceroute command-line front-ends

A shallow embedding of the two front-ends of the repository,
`paris-traceroute/paris-traceroute.c` and `ping/ping.c`.

* File-scope variables written by the command-line parser are gathered in a
  record `Statics`; `initial` holds their static initialisers.
* The library calls made by `main` (optparse, address, probe, pt_loop, ...) are
  not part of these two files.  Their return values are read from a record
  `Env`, and every call `main` makes is appended to a list of `Call`s, in
  program order, so that a run is the pair of its exit code and its calls.
* `goto` labels are the lists of calls executed from the label to `exit`.
-/

namespace ParisTraceroute

/-! ## Constants of the C library -/

/-- Value of `EXIT_SUCCESS` in stdlib.h. -/
def EXIT_SUCCESS : Int := 0

/-- Value of `EXIT_FAILURE` in stdlib.h. -/
def EXIT_FAILURE : Int := 1

/-- Value of `INT_MAX` in limits.h for a 32-bit int. -/
def INT_MAX : Nat := 2147483647

/-! ## Command line stuff -/

/-- Three-element array `{def, min, max}` of a bounded parameter:
`e0` is element `[0]`, `e1` is `[1]`, `e2` is `[2]`. -/
structure Arr3 (α : Type) where
  e0 : α
  e1 : α
  e2 : α
deriving DecidableEq

/-- Seven-element array `{def1, min1, max1, def2, min2, max2, mda_enabled}`:
`e0` is element `[0]`, ..., `e6` is element `[6]`. -/
structure Arr7 (α : Type) where
  e0 : α
  e1 : α
  e2 : α
  e3 : α
  e4 : α
  e5 : α
  e6 : α
deriving DecidableEq

/-- File-scope variables of paris-traceroute.c (lines 20-45).  The two name
arrays hold their entries before the `NULL` terminator. -/
structure Statics where
  algorithm_names : List String
  is_ipv4 : Nat
  is_udp : Nat
  do_resolv : Nat
  protocol_names : List String
  first_ttl : Arr3 Nat
  max_ttl : Arr3 Nat
  wait : Arr3 ℚ
  dst_port : Arr3 Nat
  src_port : Arr3 Nat
  mda : Arr7 Nat

/-- Static initialisers (lines 20-45): the state when no option is given. -/
def initial : Statics where
  algorithm_names := ["mda", "traceroute", "paris-traceroute"]
  is_ipv4 := 1
  is_udp := 0
  do_resolv := 1
  protocol_names := ["udp"]
  first_ttl := ⟨1, 1, 255⟩
  max_ttl := ⟨30, 1, 255⟩
  wait := ⟨5, 0, INT_MAX⟩
  dst_port := ⟨30000, 0, 65535⟩
  src_port := ⟨3083, 0, 65535⟩
  mda := ⟨95, 0, 100, 5, 1, INT_MAX, 0⟩

/-! ## Data handed to the library -/

/-- Fields of `traceroute_options_t` written by `main`.  The values are kept
as `main` writes them; `first_ttl[0]` and `max_ttl[0]` have the declared range
1..255. -/
structure traceroute_options_t where
  min_ttl : Nat
  max_ttl : Nat
  dst_ip : Option String
deriving DecidableEq

/-- Fields of `mda_options_t` written by `main`. -/
structure mda_options_t where
  traceroute_options : traceroute_options_t
  bound : Nat
  max_branch : Nat
deriving DecidableEq

/-- What `data->options` points to. -/
inductive AlgOptions where
  | traceroute (o : traceroute_options_t)
  | mda (o : mda_options_t)
deriving DecidableEq

/-- A probe field built by the macros `STR` and `I16`. -/
inductive Field where
  | str (key : String) (value : String)
  | i16 (key : String) (value : Nat)
deriving DecidableEq

/-- The macro `STR(key, value)`. -/
def STR (key : String) (value : String) : Field := Field.str key value

/-- The macro `I16(key, value)`: the value is stored on 16 bits. -/
def I16 (key : String) (value : Nat) : Field := Field.i16 key (value % 2 ^ 16)

/-- Calls made by `main`, with the arguments that matter. -/
inductive Call where
  | opt_options1st
  | opt_parse (usage : String)
  | fprintf_stderr (format : String) (args : List String)
  | perror (msg : String)
  | perror_gai_strerror (ret : Int)
  | printf (format : String) (args : List String)
  | malloc
  | address_from_string (target : Option String)
  | address_to_string
  | network_set_timeout (t : ℚ)
  | probe_create
  | probe_set_protocols (layers : List (Option String))
  | probe_set_payload_size (n : Nat)
  | probe_set_fields (fields : List Field)
  | traceroute_get_default_options
  | mda_get_default_options
  | pt_loop_create
  | pt_algorithm_add (name : Option String) (options : AlgOptions)
  | pt_loop
  | probe_free
  | pt_loop_free
  | free_dst_ip
  | free_data
deriving DecidableEq

/-- Results of the library calls of one run. -/
structure Env where
  /-- Return value of `opt_parse`. -/
  opt_parse : Int
  /-- Result of `basename(argv[0])`. -/
  basename : String
  /-- Whether `malloc` returned a non-NULL pointer. -/
  malloc : Bool
  /-- Return value of `address_from_string`. -/
  address_from_string : Int
  /-- Return value of `address_to_string`. -/
  address_to_string : Int
  /-- String stored in `data->dst_ip` by `address_to_string`. -/
  dst_ip : String
  /-- Whether `probe_create` returned a non-NULL pointer. -/
  probe_create : Bool
  /-- Result of `traceroute_get_default_options`. -/
  traceroute_get_default_options : traceroute_options_t
  /-- Result of `mda_get_default_options`. -/
  mda_get_default_options : mda_options_t
  /-- Whether `pt_loop_create` returned a non-NULL pointer. -/
  pt_loop_create : Bool
  /-- Whether `pt_algorithm_add` returned a non-NULL pointer. -/
  pt_algorithm_add : Bool
  /-- Return value of `pt_loop`. -/
  pt_loop : Int

/-- A finished run: the status given to `exit` and the calls made before. -/
structure Run where
  exit_code : Int
  calls : List Call
deriving DecidableEq

/-- The call `strcmp(a, b) == 0` where `a` may be `NULL`; a `NULL` pointer is
taken to differ from every string. -/
def streq (a : Option String) (b : String) : Bool :=
  match a with
  | some x => x == b
  | none => false

/-! ## The scan of the argument vector (lines 176-179) -/

/-- The loop `for(i = 0; argv[i] && i < argc; ++i);` started at index `i` on
the cells of `argv` from `i` on.  A cell is `none` for a `NULL` pointer; the
result is `none` when the loop reads a cell after the last one of the array. -/
def scan_from (argc : Int) : List (Option String) → Nat → Option Nat
  | [], _ => none
  | none :: _, i => some i
  | some _ :: rest, i =>
      if (i : Int) < argc then scan_from argc rest (i + 1) else some i

/-- The final value of `i`. -/
def scan (argc : Int) (argv : List (Option String)) : Option Nat :=
  scan_from argc argv 0

/-- The expression `argv[i - 1]` after the loop: `none` when the loop or the
read leaves the array, or when the cell read is `NULL`. -/
def target (argc : Int) (argv : List (Option String)) : Option String :=
  match scan argc argv with
  | some (i + 1) => (argv.get? i).join
  | _ => none

/-! ## Exit labels of `main` (lines 278-295) -/

/-- Labels `ERR_ADDRESS_FROM_STRING` and `ERR_DATA`: nothing but `exit`. -/
def ERR_DATA : List Call := []

/-- Labels `ERR_LOOP_CREATE` and `ERR_ADDRESS_TO_STRING`. -/
def ERR_ADDRESS_TO_STRING : List Call :=
  [Call.free_dst_ip, Call.free_data] ++ ERR_DATA

/-- Label `ERR_PROBE_SKEL`. -/
def ERR_PROBE_SKEL : List Call :=
  Call.pt_loop_free :: ERR_ADDRESS_TO_STRING

/-- Labels `ERR_PT_LOOP`, `ERR_INSTANCE`, `ERR_UNKNOWN_ALGORITHM` and
`ERR_INVALID_ALGORITHM`. -/
def ERR_INVALID_ALGORITHM : List Call :=
  Call.probe_free :: ERR_PROBE_SKEL

/-! ## Main -/

/-- Lines 225-231: the value of `data->algorithm` after the check of `-M`, or
`none` when the check jumps to `ERR_INVALID_ALGORITHM`. -/
def check_mda (mda6 : Nat) (algorithm : Option String) : Option (Option String) :=
  if mda6 ≠ 0 then
    if algorithm.isSome && !streq algorithm "mda" then none
    else some (some "mda")
  else some algorithm

/-- Lines 233-255: the options of the chosen algorithm, with the common
options written through `ptraceroute_options`; `none` for an unknown name. -/
def dedicated_options (s : Statics) (e : Env) (algorithm : Option String)
    (dst_ip : String) : Option (List Call × AlgOptions) :=
  if streq algorithm "traceroute" || streq algorithm "paris-traceroute" then
    let traceroute_options := e.traceroute_get_default_options
    some ([Call.traceroute_get_default_options],
      AlgOptions.traceroute
        { traceroute_options with
          min_ttl := s.first_ttl.e0, max_ttl := s.max_ttl.e0, dst_ip := some dst_ip })
  else if streq algorithm "mda" || s.mda.e6 ≠ 0 then
    let mda_options := e.mda_get_default_options
    let mda_options := { mda_options with bound := s.mda.e0 }
    let mda_options := { mda_options with max_branch := s.mda.e3 }
    some ([Call.mda_get_default_options],
      AlgOptions.mda
        { mda_options with
          traceroute_options :=
            { mda_options.traceroute_options with
              min_ttl := s.first_ttl.e0, max_ttl := s.max_ttl.e0, dst_ip := some dst_ip } })
  else none

/-- Lines 202-223: the calls that fill the probe skeleton. -/
def probe_skel_calls (s : Statics) (dst_ip : String) : List Call :=
  [ Call.probe_set_protocols
      [ some (if s.is_ipv4 ≠ 0 then "ipv4" else "ipv6"),
        if s.is_udp ≠ 0 then some "udp" else s.protocol_names.head? ],
    Call.probe_set_payload_size 32,
    Call.probe_set_fields
      [ STR "dst_ip" dst_ip, I16 "dst_port" s.dst_port.e0, I16 "src_port" s.src_port.e0 ] ]
  ++ (if s.is_udp ≠ 0 then [Call.probe_set_fields [I16 "dst_port" 53]] else [])

/-- The run that makes the calls `pre` and then goes on as `r`. -/
def Run.after (pre : List Call) (r : Run) : Run :=
  ⟨r.exit_code, pre ++ r.calls⟩

/-- Lines 257-295 of `main`: the loop is created, the algorithm instance is
added and the loop is run. -/
def main_loop (e : Env) (algorithm : Option String) (options : AlgOptions) : Run :=
  let exit_code := EXIT_FAILURE
  let t := [Call.pt_loop_create]
  if !e.pt_loop_create then
    ⟨exit_code,
      t ++ [Call.perror "E: Cannot create libparistraceroute loop"]
        ++ ERR_ADDRESS_TO_STRING⟩
  else
  let t := t ++ [Call.pt_algorithm_add algorithm options]
  if !e.pt_algorithm_add then
    ⟨exit_code,
      t ++ [Call.perror "E: Cannot add the chosen algorithm"] ++ ERR_INVALID_ALGORITHM⟩
  else
  let t := t ++ [Call.pt_loop]
  if e.pt_loop < 0 then
    ⟨exit_code, t ++ [Call.perror "E: Main loop interrupted"] ++ ERR_INVALID_ALGORITHM⟩
  else
  let exit_code := EXIT_SUCCESS
  ⟨exit_code, t ++ ERR_INVALID_ALGORITHM⟩

/-- Lines 225-295 of `main`: the check of `-M`, the options of the algorithm,
then `main_loop`. -/
def main_algorithm (s : Statics) (e : Env) (algorithm : Option String)
    (dst_ip : String) : Run :=
  let exit_code := EXIT_FAILURE
  match check_mda s.mda.e6 algorithm with
  | none =>
    ⟨exit_code,
      [Call.perror "E: You cannot pass options related to mda when using another algorithm "]
        ++ ERR_INVALID_ALGORITHM⟩
  | some algorithm =>
  match dedicated_options s e algorithm dst_ip with
  | none => ⟨exit_code, [Call.perror "E: Unknown algorithm "] ++ ERR_INVALID_ALGORITHM⟩
  | some (getters, options) => (main_loop e algorithm options).after getters

/-- Lines 190-295 of `main`: the timeout is set, the probe skeleton is created
and filled, then `main_algorithm`. -/
def main_probe (s : Statics) (e : Env) : Run :=
  let exit_code := EXIT_FAILURE
  let dst_ip := e.dst_ip
  let algorithm := s.algorithm_names.head?
  let t :=
    [ Call.network_set_timeout s.wait.e0,
      Call.printf "Traceroute to %s using algorithm %s\n\n"
        [dst_ip, algorithm.getD "(null)"],
      Call.probe_create ]
  if !e.probe_create then
    ⟨exit_code, t ++ [Call.perror "E: Cannot create probe skeleton"] ++ ERR_PROBE_SKEL⟩
  else
  (main_algorithm s e algorithm dst_ip).after (t ++ probe_skel_calls s dst_ip)

/-- The function `main` of paris-traceroute.c (lines 150-296); its lines from
190 on are `main_probe`. -/
def main (s : Statics) (e : Env) (argc : Int) (argv : List (Option String)) : Run :=
  let exit_code := EXIT_FAILURE
  let t := [Call.opt_options1st, Call.opt_parse "usage: %s [options] host"]
  if e.opt_parse ≠ 1 then
    ⟨EXIT_FAILURE, t ++ [Call.fprintf_stderr "%s: destination required\n" [e.basename]]⟩
  else
  let t := t ++ [Call.malloc]
  if !e.malloc then
    ⟨exit_code, t ++ [Call.perror "E: No enough memory"] ++ ERR_DATA⟩
  else
  let t := t ++ [Call.address_from_string (target argc argv)]
  if e.address_from_string ≠ 0 then
    ⟨exit_code, t ++ [Call.perror_gai_strerror e.address_from_string] ++ ERR_DATA⟩
  else
  let t := t ++ [Call.address_to_string]
  if e.address_to_string ≠ 0 then
    ⟨exit_code,
      t ++ [Call.perror_gai_strerror e.address_to_string] ++ ERR_ADDRESS_TO_STRING⟩
  else
  (main_probe s e).after t

/-! ## Program data and the event handler (lines 81-148) -/

/-- A pointer handed over by the library, kept as an address. -/
abbrev Ptr := Nat

/-- The structure `paris_traceroute_data_t` (lines 81-85). -/
structure paris_traceroute_data_t where
  algorithm : Option String
  dst_ip : Option String
  options : Option AlgOptions

/-- Values of `event->type` told apart by `user_handler`; `other` stands for
every remaining value of the enumeration. -/
inductive event_type_t where
  | ALGORITHM_TERMINATED
  | ALGORITHM_EVENT
  | other (code : Nat)
deriving DecidableEq

/-- Values of `mda_event->type` told apart by `user_handler`; `other` stands
for every remaining value of the enumeration. -/
inductive mda_event_type_t where
  | MDA_NEW_LINK
  | other (code : Nat)
deriving DecidableEq

/-- The fields `type` and `data` of a `mda_event_t`. -/
structure mda_event_t where
  type : mda_event_type_t
  data : Ptr
deriving DecidableEq

/-- An `event_t` as `user_handler` reads it. -/
structure event_t where
  type : event_type_t
  /-- The pointer `event->data`. -/
  data : Ptr
  /-- The record read through `event->data` used as a `mda_event_t *`. -/
  mda_event : mda_event_t
deriving DecidableEq

/-- Calls made by `user_handler`. -/
inductive Action where
  /-- The call `lattice_dump(lattice, (ELEMENT_DUMP) result_dump)`. -/
  | lattice_dump (lattice : Ptr)
  /-- The call `mda_link_dump(link, do_resolv)`. -/
  | mda_link_dump (link : Ptr) (do_resolv : Nat)
  /-- The call `pt_loop_terminate(loop)`. -/
  | pt_loop_terminate
deriving DecidableEq

/-- The function `user_handler` (lines 120-148); `do_resolv` is the file-scope
variable of that name. -/
def user_handler (do_resolv : Nat) (event : event_t)
    (data : paris_traceroute_data_t) : List Action :=
  match event.type with
  | event_type_t.ALGORITHM_TERMINATED =>
      (if !streq data.algorithm "mda" then [Action.lattice_dump event.data] else [])
        ++ [Action.pt_loop_terminate]
  | event_type_t.ALGORITHM_EVENT =>
      if streq data.algorithm "mda" then
        let mda_event := event.mda_event
        match mda_event.type with
        | mda_event_type_t.MDA_NEW_LINK => [Action.mda_link_dump mda_event.data do_resolv]
        | _ => []
      else []
  | _ => []

/-! ## Observations on a run -/

/-- Name of a probe field. -/
def Field.key : Field → String
  | Field.str key _ => key
  | Field.i16 key _ => key

/-- The fields written to the probe skeleton by a call. -/
def written_fields : Call → List Field
  | Call.probe_set_fields fields => fields
  | _ => []

/-- The last field named `key` written by the calls `probe_set_fields` of a
list of calls: the value the probe skeleton ends with. -/
def final_field (key : String) (calls : List Call) : Option Field :=
  (calls.flatMap written_fields).reverse.find? fun f => f.key == key

/-- The arguments of a call `pt_algorithm_add`. -/
def add_args : Call → Option (Option String × AlgOptions)
  | Call.pt_algorithm_add name options => some (name, options)
  | _ => none

/-- The arguments of the first call `pt_algorithm_add` of a list of calls. -/
def algorithm_add_args (calls : List Call) : Option (Option String × AlgOptions) :=
  calls.findSome? add_args

/-- The argument of a call `network_set_timeout`. -/
def timeout_arg : Call → Option ℚ
  | Call.network_set_timeout t => some t
  | _ => none

/-- The argument of the first call `network_set_timeout` of a list of calls. -/
def network_timeout (calls : List Call) : Option ℚ :=
  calls.findSome? timeout_arg

/-- Whether the steps of `main` up to `probe_create` all succeed, so that the
probe skeleton is filled. -/
def reaches_probe_skel (e : Env) : Bool :=
  e.opt_parse == 1 && e.malloc && e.address_from_string == 0
    && e.address_to_string == 0 && e.probe_create

end ParisTraceroute

namespace Ping

/-! ## Constants of the C library -/

/-- Value of `EXIT_SUCCESS` in stdlib.h. -/
def EXIT_SUCCESS : Int := 0

/-- Value of `EXIT_FAILURE` in stdlib.h. -/
def EXIT_FAILURE : Int := 1

/-- Value of `AF_INET` in sys/socket.h (Linux). -/
def AF_INET : Int := 2

/-- Value of `AF_INET6` in sys/socket.h (Linux). -/
def AF_INET6 : Int := 10

/-- Value of `UINT16_MAX` in stdint.h. -/
def UINT16_MAX : Int := 65535

/-- Value of `DBL_MAX` in float.h for an IEEE 754 double. -/
def DBL_MAX : ℚ := 2 ^ 1024 - 2 ^ 971

/-! ## Command line stuff -/

/-- Four-element array `{def, min, max, option_enabled}`: `e0` is element
`[0]`, ..., `e3` is element `[3]`. -/
structure Arr4 (α : Type) where
  e0 : α
  e1 : α
  e2 : α
  e3 : α
deriving DecidableEq

/-- File-scope variables of ping.c (lines 53-82).  The two name arrays hold
their entries before the `NULL` terminator.  The arrays `packet_size` and
`max_ttl` are initialised from macros of options.h and are not read by the
functions of this file. -/
structure Statics where
  algorithm_names : List String
  is_ipv4 : Bool
  is_ipv6 : Bool
  is_tcp : Bool
  is_udp : Bool
  is_icmp : Bool
  set_flow_label : Bool
  protocol_names : List String
  dst_port : Arr4 Int
  src_port : Arr4 Int
  send_time : Arr4 ℚ

/-- Static initialisers (lines 53-82): the state when no option is given. -/
def initial : Statics where
  algorithm_names := ["ping"]
  is_ipv4 := false
  is_ipv6 := false
  is_tcp := false
  is_udp := false
  is_icmp := false
  set_flow_label := false
  protocol_names := ["icmp", "tcp", "udp"]
  dst_port := ⟨33457, 0, UINT16_MAX, 0⟩
  src_port := ⟨33456, 0, UINT16_MAX, 0⟩
  send_time := ⟨1, 1, DBL_MAX, 0⟩

/-- Calls made by the functions of ping.c, with the arguments that matter. -/
inductive Call where
  | strdup (s : String)
  | options_create
  | options_add_optspecs (which : String)
  | options_add_common
  | options_parse (usage : String)
  | fprintf_stderr (format : String) (args : List String)
  | perror_gai_strerror (errno : Int)
  | printf (format : String) (args : List String)
  | address_guess_family (dst_ip : Option String)
  | address_from_string (family : Int) (dst_ip : Option String)
  | address_dump
  | probe_create
  | probe_set_protocols (layers : List (Option String))
  | probe_set_field_dst_ip
  | ping_get_default_options
  | options_ping_init (send_time : ℚ)
  | options_network_init
  | pt_loop_create
  | pt_algorithm_add (name : Option String)
  | pt_loop
  | pt_loop_free
  | probe_free
  | free_version
deriving DecidableEq

/-- Results of the library calls of one run. -/
structure Env where
  /-- Whether `options_create` returned a non-NULL pointer. -/
  options_create : Bool
  /-- Return value of `options_parse`. -/
  options_parse : Int
  /-- Result of `basename(argv[0])`. -/
  basename : String
  /-- Return value of `address_guess_family`. -/
  address_guess_family : Bool
  /-- Family stored by `address_guess_family`. -/
  guessed_family : Int
  /-- Return value of `address_from_string`. -/
  address_from_string : Int
  /-- Whether `probe_create` returned a non-NULL pointer. -/
  probe_create : Bool
  /-- Whether `pt_loop_create` returned a non-NULL pointer. -/
  pt_loop_create : Bool
  /-- Whether `pt_algorithm_add` returned a non-NULL pointer. -/
  pt_algorithm_add : Bool
  /-- Return value of `pt_loop`. -/
  pt_loop : Int
  /-- Value of `errno` when the exit labels are reached. -/
  errno : Int

/-- A finished run: the status given to `exit` and the calls made before. -/
structure Run where
  exit_code : Int
  calls : List Call
deriving DecidableEq

/-- The call `strcmp(a, b) == 0` where `a` may be `NULL`; a `NULL` pointer is
taken to differ from every string. -/
def streq (a : Option String) (b : String) : Bool :=
  match a with
  | some x => x == b
  | none => false

/-- Lines 118-135: whether `init_options` returns a non-NULL pointer, with the
calls it makes. -/
def init_options (e : Env) : Bool × List Call :=
  if !e.options_create then (false, [Call.options_create])
  else
    (true,
      [ Call.options_create,
        Call.options_add_optspecs "runnable_options",
        Call.options_add_optspecs "ping_get_options()",
        Call.options_add_optspecs "network_get_options()",
        Call.options_add_common ])

/-! ## Options checking

Each check returns its result together with the lines it writes to stderr. -/

/-- Lines 141-151. -/
def check_ip_version (is_ipv4 is_ipv6 : Bool) : Bool × List String :=
  if is_ipv4 && is_ipv6 then
    (false, ["Cannot set both ip versions\n"])
  else (true, [])

/-- Lines 153-167. -/
def check_protocol (is_icmp is_tcp is_udp : Bool) (_protocol_name : Option String) :
    Bool × List String :=
  let check : Nat := 0
  let check := if is_icmp then check + 1 else check
  let check := if is_udp then check + 1 else check
  let check := if is_tcp then check + 1 else check
  if check > 1 then
    (false, ["E: Cannot use simultaneously icmp tcp and udp tracerouting\n"])
  else (true, [])

/-- Lines 169-177. -/
def check_ports (is_icmp : Bool) (dst_port_enabled src_port_enabled : Int) :
    Bool × List String :=
  if is_icmp && (dst_port_enabled ≠ 0 || src_port_enabled ≠ 0) then
    (false, ["E: Cannot use --src-port or --dst-port when using icmp tracerouting\n"])
  else (true, [])

/-- Lines 179-186. -/
def check_valid_flow_option (is_ipv6 set_flow_label : Bool) : Bool × List String :=
  if !is_ipv6 && set_flow_label then
    (!set_flow_label, ["E: Cannot set a flow label when using ipv4\n"])
  else (true, [])

/-- The operator `&&` of C on two calls that write to stderr: the right
operand is evaluated only when the left one is true. -/
def seq_and (a : Bool × List String) (b : Unit → Bool × List String) :
    Bool × List String :=
  if a.1 then ((b ()).1, a.2 ++ (b ()).2) else (false, a.2)

/-- Lines 188-204. -/
def check_options (is_icmp is_tcp is_udp is_ipv4 is_ipv6 set_flow_label : Bool)
    (dst_port_enabled src_port_enabled : Int)
    (protocol_name _algorithm_name : Option String) : Bool × List String :=
  seq_and (check_ip_version is_ipv4 is_ipv6) fun _ =>
  seq_and (check_protocol is_icmp is_tcp is_udp protocol_name) fun _ =>
  seq_and (check_ports is_icmp dst_port_enabled src_port_enabled) fun _ =>
  check_valid_flow_option is_ipv6 set_flow_label

/-- A line written to stderr by one of the checks: a format without
arguments. -/
def stderr_line (msg : String) : Call := Call.fprintf_stderr msg []

/-! ## Protocol names

Each function returns its result (`none` for `NULL`) together with the calls
it makes. -/

/-- Lines 262-274. -/
def get_ip_protocol_name (family : Int) : Option String × List Call :=
  if family = AF_INET then (some "ipv4", [])
  else if family = AF_INET6 then (some "ipv6", [])
  else
    (none,
      [Call.fprintf_stderr "get_ip_protocol_name: Internet family not supported (%d)\n"
        [toString family]])

/-- Lines 276-294. -/
def get_protocol_name (family : Int) (use_icmp use_tcp use_udp : Bool) :
    Option String × List Call :=
  if use_icmp then
    if family = AF_INET then (some "icmpv4", [])
    else if family = AF_INET6 then (some "icmpv6", [])
    else (none, [Call.fprintf_stderr "Internet family not supported (%d)\n" [toString family]])
  else if use_tcp then (some "tcp", [])
  else if use_udp then (some "udp", [])
  else (none, [])

/-! ## Exit labels of `main` (lines 492-510) -/

/-- Labels `ERR_CHECK_OPTIONS`, `ERR_OPT_PARSE` and `ERR_INIT_OPTIONS`. -/
def ERR_CHECK_OPTIONS : List Call := [Call.free_version]

/-- Labels `ERR_PROBE_CREATE`, `ERR_ADDRESS_IP_FROM_STRING` and
`ERR_ADDRESS_GUESS_FAMILY`. -/
def ERR_PROBE_CREATE (e : Env) : List Call :=
  (if e.errno ≠ 0 then [Call.perror_gai_strerror e.errno] else []) ++ ERR_CHECK_OPTIONS

/-- Label `ERR_LOOP_CREATE`. -/
def ERR_LOOP_CREATE (e : Env) : List Call :=
  Call.probe_free :: ERR_PROBE_CREATE e

/-- Labels `ERR_PT_LOOP` and `ERR_INSTANCE`. -/
def ERR_PT_LOOP (e : Env) : List Call :=
  Call.pt_loop_free :: ERR_LOOP_CREATE e

/-! ## Main program -/

/-- The expression `argv[argc - 1]` (line 331): `none` when the index is
outside the array or the cell is `NULL`. -/
def last_arg (argc : Int) (argv : List (Option String)) : Option String :=
  if 1 ≤ argc then (argv.get? (argc - 1).toNat).join else none

/-- Lines 345-354: the family chosen by `main`, or `none` when
`address_guess_family` fails, with the calls made. -/
def select_family (s : Statics) (e : Env) (dst_ip : Option String) :
    Option Int × List Call :=
  if s.is_ipv4 then (some AF_INET, [])
  else if s.is_ipv6 then (some AF_INET6, [])
  else if !e.address_guess_family then (none, [Call.address_guess_family dst_ip])
  else (some e.guessed_family, [Call.address_guess_family dst_ip])

/-- The run that makes the calls `pre` and then goes on as `r`. -/
def Run.after (pre : List Call) (r : Run) : Run :=
  ⟨r.exit_code, pre ++ r.calls⟩

/-- Lines 458-510 of `main`: the options of the algorithm are prepared, the
loop is created, the algorithm instance is added and the loop is run. -/
def main_loop (s : Statics) (e : Env) (dst_ip algorithm_name : Option String) : Run :=
  let exit_code := EXIT_FAILURE
  let t :=
    [ Call.ping_get_default_options,
      Call.options_ping_init s.send_time.e0,
      Call.pt_loop_create ]
  if !e.pt_loop_create then
    ⟨exit_code,
      t ++ [Call.fprintf_stderr "E: Cannot create libparistraceroute loop" []]
        ++ ERR_LOOP_CREATE e⟩
  else
  let t := t ++
    [ Call.options_network_init,
      Call.printf "ping to %s (" [dst_ip.getD "(null)"],
      Call.address_dump,
      Call.printf ")\n" [],
      Call.pt_algorithm_add algorithm_name ]
  if !e.pt_algorithm_add then
    ⟨exit_code,
      t ++ [Call.fprintf_stderr "E: Cannot add the chosen algorithm" []] ++ ERR_PT_LOOP e⟩
  else
  let t := t ++ [Call.pt_loop]
  if e.pt_loop < 0 then
    ⟨exit_code, t ++ [Call.fprintf_stderr "E: Main loop interrupted" []] ++ ERR_PT_LOOP e⟩
  else
  let exit_code := EXIT_SUCCESS
  ⟨exit_code, t ++ ERR_PT_LOOP e⟩

/-- Lines 356-510 of `main`: the target is parsed, the probe skeleton is
created and prepared, then `main_loop`. -/
def main_probe (s : Statics) (e : Env) (dst_ip algorithm_name : Option String)
    (family : Int) (use_icmp use_tcp use_udp : Bool) : Run :=
  let exit_code := EXIT_FAILURE
  let t := [Call.address_from_string family dst_ip]
  if e.address_from_string ≠ 0 then
    ⟨exit_code,
      t ++ [Call.fprintf_stderr "E: Invalid destination address %s\n"
          [dst_ip.getD "(null)"]]
        ++ ERR_PROBE_CREATE e⟩
  else
  let t := t ++ [Call.probe_create]
  if !e.probe_create then
    ⟨exit_code,
      t ++ [Call.fprintf_stderr "E: Cannot create probe skeleton" []] ++ ERR_PROBE_CREATE e⟩
  else
  let ip_name := get_ip_protocol_name family
  let name := get_protocol_name family use_icmp use_tcp use_udp
  let t := t ++ ip_name.2 ++ name.2
    ++ [ Call.probe_set_protocols [ip_name.1, name.1],
         Call.probe_set_field_dst_ip ]
  (main_loop s e dst_ip algorithm_name).after t

/-- Lines 341-510 of `main`, run once `check_options` has returned true: the
family is selected, then `main_probe`. -/
def main_checked (s : Statics) (e : Env) (dst_ip algorithm_name protocol_name : Option String) :
    Run :=
  let exit_code := EXIT_FAILURE
  let use_icmp := s.is_icmp || streq protocol_name "icmp"
  let use_tcp := s.is_tcp || streq protocol_name "tcp"
  let use_udp := s.is_udp || streq protocol_name "udp"
  let t := (select_family s e dst_ip).2
  match (select_family s e dst_ip).1 with
  | none => ⟨exit_code, t ++ ERR_PROBE_CREATE e⟩
  | some family =>
    (main_probe s e dst_ip algorithm_name family use_icmp use_tcp use_udp).after t

/-- The function `main` of ping.c (lines 300-511); its lines from 341 on are
`main_checked`. -/
def main (s : Statics) (e : Env) (argc : Int) (argv : List (Option String)) : Run :=
  let exit_code := EXIT_FAILURE
  let t := [Call.strdup "version 1.0"] ++ (init_options e).2
  if !(init_options e).1 then
    ⟨exit_code,
      t ++ [Call.fprintf_stderr "E: Can't initialize options\n" []] ++ ERR_CHECK_OPTIONS⟩
  else
  let t := t ++ [Call.options_parse "usage: %s [options] host\n"]
  if e.options_parse ≠ 1 then
    ⟨exit_code,
      t ++ [Call.fprintf_stderr "%s: destination required\n" [e.basename]]
        ++ ERR_CHECK_OPTIONS⟩
  else
  let dst_ip := last_arg argc argv
  let algorithm_name := s.algorithm_names.head?
  let protocol_name := s.protocol_names.head?
  let checked := check_options s.is_icmp s.is_tcp s.is_udp s.is_ipv4 s.is_ipv6
    s.set_flow_label s.dst_port.e3 s.src_port.e3 protocol_name algorithm_name
  let t := t ++ checked.2.map stderr_line
  if !checked.1 then ⟨exit_code, t ++ ERR_CHECK_OPTIONS⟩
  else
  (main_checked s e dst_ip algorithm_name protocol_name).after t

end Ping

/-! ## Sample runs -/

namespace ParisTraceroute

/-- Library results of a run where every call succeeds; the default options
returned by the library are all zero, so that every value found in the options
handed to `pt_algorithm_add` was written by `main`. -/
def env_ok : Env where
  opt_parse := 1
  basename := "paris-traceroute"
  malloc := true
  address_from_string := 0
  address_to_string := 0
  dst_ip := "127.0.0.1"
  probe_create := true
  traceroute_get_default_options := ⟨0, 0, none⟩
  mda_get_default_options := ⟨⟨0, 0, none⟩, 0, 0⟩
  pt_loop_create := true
  pt_algorithm_add := true
  pt_loop := 0

/-- The argument vector of `paris-traceroute 127.0.0.1`, with its `NULL`
terminator. -/
def argv_host : List (Option String) :=
  [some "paris-traceroute", some "127.0.0.1", none]

/-- The variables after parsing `-a traceroute -M 95,5`: the chosen name is
in slot 0 of `algorithm_names` and `mda[6]` is set. -/
def statics_traceroute_M : Statics :=
  { initial with
    algorithm_names := ["traceroute", "mda", "paris-traceroute"]
    mda := ⟨95, 0, 100, 5, 1, INT_MAX, 1⟩ }

end ParisTraceroute

namespace Ping

/-- The calls of a list that write to stderr. -/
def stderr_writes (calls : List Call) : List Call :=
  calls.filter fun c =>
    match c with
    | Call.fprintf_stderr _ _ => true
    | Call.perror_gai_strerror _ => true
    | _ => false

/-- Library results of a run where every call succeeds and the target is
guessed to be an IPv6 address. -/
def env_ok : Env where
  options_create := true
  options_parse := 1
  basename := "ping"
  address_guess_family := true
  guessed_family := AF_INET6
  address_from_string := 0
  probe_create := true
  pt_loop_create := true
  pt_algorithm_add := true
  pt_loop := 0
  errno := 0

/-- The argument vector of `ping -f ::1`, with its `NULL` terminator. -/
def argv_f : List (Option String) := [some "ping", some "-f", some "::1", none]

/-- The variables after parsing `-f` alone. -/
def statics_f : Statics := { initial with set_flow_label := true }

/-- The argument vector of `ping -4 -6 hostname`. -/
def argv_4_6 : List (Option String) :=
  [some "ping", some "-4", some "-6", some "hostname", none]

/-- The argument vector of `ping -4 -f ::1`. -/
def argv_4_f : List (Option String) :=
  [some "ping", some "-4", some "-f", some "::1", none]

/-- The argument vector of `ping -6 -f ::1`. -/
def argv_6_f : List (Option String) :=
  [some "ping", some "-6", some "-f", some "::1", none]

end Ping

namespace Ping

/-- Formats of the lines written to stderr by `main` itself and by the name
functions, the lines of `check_options` apart. -/
def main_formats : List String :=
  [ "E: Can't initialize options\n", "%s: destination required\n",
    "E: Invalid destination address %s\n", "E: Cannot create probe skeleton",
    "get_ip_protocol_name: Internet family not supported (%d)\n",
    "Internet family not supported (%d)\n",
    "E: Cannot create libparistraceroute loop", "E: Cannot add the chosen algorithm",
    "E: Main loop interrupted" ]

/-- Whether a call is not a `fprintf` to stderr with a format outside
`allowed`. -/
def format_in (allowed : List String) : Call → Bool
  | Call.fprintf_stderr format _ => decide (format ∈ allowed)
  | _ => true

end Ping

namespace ParisTraceroute

/-- The MDA options of the first call `pt_algorithm_add` of a list of calls,
when that call is given MDA options. -/
def handed_mda_options (calls : List Call) : Option mda_options_t :=
  match algorithm_add_args calls with
  | some (_, AlgOptions.mda o) => some o
  | _ => none

/-- Whether a call is not `probe_set_fields`. -/
def not_set_fields : Call → Bool
  | Call.probe_set_fields _ => false
  | _ => true

/-- Whether a call is not `pt_algorithm_add`. -/
def not_algorithm_add : Call → Bool
  | Call.pt_algorithm_add _ _ => false
  | _ => true

/-- Whether a call is not `network_set_timeout`. -/
def not_set_timeout : Call → Bool
  | Call.network_set_timeout _ => false
  | _ => true

end ParisTraceroute

namespace ParisTraceroute

/-- Lines 225-255: the name and the options `main` hands to `pt_algorithm_add`
when it gets there, `none` when it jumps to `ERR_INVALID_ALGORITHM` or
`ERR_UNKNOWN_ALGORITHM`. -/
def selected_options (s : Statics) (e : Env) : Option (Option String × AlgOptions) :=
  match check_mda s.mda.e6 s.algorithm_names.head? with
  | none => none
  | some algorithm =>
    match dedicated_options s e algorithm e.dst_ip with
    | none => none
    | some (_, options) => some (algorithm, options)

end ParisTraceroute

/-! ## Reads of the scan, lattice elements and the event handler of ping -/

namespace ParisTraceroute

/-- The indices of `argv` read by the loop `for(i = 0; argv[i] && i < argc;
++i);` started at index `i`, in order; the cases are those of `scan_from`. -/
def scan_reads_from (argc : Int) : List (Option String) → Nat → List Nat
  | [], i => [i]
  | none :: _, i => [i]
  | some _ :: rest, i =>
      i :: (if (i : Int) < argc then scan_reads_from argc rest (i + 1) else [])

/-- The indices of `argv` read by the scan of lines 176-177. -/
def scan_reads (argc : Int) (argv : List (Option String)) : List Nat :=
  scan_reads_from argc argv 0

/-- A lattice element as `result_dump` reads it: the pointer returned by
`lattice_elt_get_data` (`none` for `NULL`) and the elements stored in the
dynamic array `elt->next`, in the order of their indices. -/
inductive lattice_elt_t where
  | mk (data : Option Ptr) (next : List lattice_elt_t)

/-- The call `lattice_elt_get_data(elt)`. -/
def lattice_elt_get_data : lattice_elt_t → Option Ptr
  | lattice_elt_t.mk data _ => data

/-- The field `elt->next`. -/
def lattice_elt_t.next : lattice_elt_t → List lattice_elt_t
  | lattice_elt_t.mk _ next => next

/-- The call `dynarray_get_size(elt->next)`. -/
def dynarray_get_size (next : List lattice_elt_t) : Nat := next.length

/-- The call `dynarray_get_ith_element(elt->next, i)`. -/
def dynarray_get_ith_element (next : List lattice_elt_t) (i : Nat) : Option lattice_elt_t :=
  next.get? i

/-- One call `mda_link_dump(link, do_resolv)` of `result_dump`, with the two
cells of the array `link` (`none` for `NULL`). -/
structure link_dump where
  link0 : Option Ptr
  link1 : Option Ptr
  do_resolv : Nat
deriving DecidableEq

/-- The function `result_dump` (lines 92-110): the calls `mda_link_dump` it
makes, in order.  `num_next` is an `unsigned int`, kept on 32 bits. -/
def result_dump (do_resolv : Nat) (elt : lattice_elt_t) : List link_dump :=
  let link0 := lattice_elt_get_data elt
  let num_next := dynarray_get_size elt.next % 2 ^ 32
  (if num_next = 0 then [⟨link0, none, do_resolv⟩] else [])
  ++ (List.range num_next).map fun i =>
      let iter_elt := dynarray_get_ith_element elt.next i
      ⟨link0, iter_elt.bind lattice_elt_get_data, do_resolv⟩

/-- A call of `main` without the algorithm name: the name given to
`pt_algorithm_add` and the arguments of `printf` are dropped. -/
def forget_name : Call → Call
  | Call.pt_algorithm_add _ options => Call.pt_algorithm_add none options
  | Call.printf format _ => Call.printf format []
  | c => c

end ParisTraceroute

namespace Ping

/-- A pointer handed over by the library, kept as an address. -/
abbrev Ptr := Nat

/-- Values of `event->type` told apart by `loop_handler`; `other` stands for
every remaining value of the enumeration. -/
inductive event_type_t where
  | ALGORITHM_TERMINATED
  | ALGORITHM_EVENT
  | other (code : Nat)
deriving DecidableEq

/-- The fields of `event->issuer` read by `loop_handler`. -/
structure algorithm_instance_t where
  options : Ptr
  data : Ptr
deriving DecidableEq

/-- An `event_t` as `loop_handler` reads it. -/
structure event_t where
  type : event_type_t
  issuer : algorithm_instance_t
  data : Ptr
deriving DecidableEq

/-- Calls made by `loop_handler`. -/
inductive HandlerCall where
  | printf (msg : String)
  | pt_instance_stop (issuer : algorithm_instance_t)
  | pt_loop_terminate
  | ping_handler (ping_event ping_options ping_data : Ptr)
  | event_free
deriving DecidableEq

/-- The function `loop_handler` (lines 220-260). -/
def loop_handler (event : event_t) : List HandlerCall :=
  (match event.type with
    | event_type_t.ALGORITHM_TERMINATED =>
        [ HandlerCall.printf "DONE\n",
          HandlerCall.pt_instance_stop event.issuer,
          HandlerCall.pt_loop_terminate ]
    | event_type_t.ALGORITHM_EVENT =>
        let ping_event := event.data
        let ping_options := event.issuer.options
        let ping_data := event.issuer.data
        [HandlerCall.ping_handler ping_event ping_options ping_data]
    | _ => [])
  ++ [HandlerCall.event_free]

end Ping

namespace Ping

/-- Whether a call is not `probe_set_protocols`. -/
def not_set_protocols : Call → Bool
  | Call.probe_set_protocols _ => false
  | _ => true

/-- Whether a call is not `address_guess_family`. -/
def not_guess_family : Call → Bool
  | Call.address_guess_family _ => false
  | _ => true

/-- The variables after parsing `-4`. -/
def statics_4 : Statics := { initial with is_ipv4 := true }

/-- The argument vector of `ping -4 127.0.0.1`, with its `NULL` terminator. -/
def argv_4 : List (Option String) := [some "ping", some "-4", some "127.0.0.1", none]

end Ping

/-! # Properties of the paris-traceroute front-end -/

namespace ParisTraceroute

/-- With `-M` given, a name other than mda makes the check of lines 225-231
jump to `ERR_INVALID_ALGORITHM`. -/
theorem check_mda_other (m : Nat) (a : String) (hM : m ≠ 0) (hne : a ≠ "mda") :
    check_mda m (some a) = none := by
  simp [check_mda, streq, hM, hne]

/-- C1: when `-M` was given (`mda[6]` is non-zero) and the selected algorithm
name is not mda, `main` exits with `EXIT_FAILURE` and never calls
`pt_loop_create`, `pt_algorithm_add` or `pt_loop`, whatever the library calls
return; and when the steps before the check succeed, it is the
invalid-algorithm path that is taken (its message is printed by `perror`). -/
theorem main_mda_option_with_other_algorithm (s : Statics) (e : Env) (argc : Int)
    (argv : List (Option String)) (a : String)
    (hM : s.mda.e6 ≠ 0) (ha : s.algorithm_names.head? = some a) (hne : a ≠ "mda") :
    (main s e argc argv).exit_code = EXIT_FAILURE
    ∧ Call.pt_loop_create ∉ (main s e argc argv).calls
    ∧ (∀ n o, Call.pt_algorithm_add n o ∉ (main s e argc argv).calls)
    ∧ Call.pt_loop ∉ (main s e argc argv).calls
    ∧ (reaches_probe_skel e = true →
        Call.perror "E: You cannot pass options related to mda when using another algorithm "
          ∈ (main s e argc argv).calls) := by
  have hc := check_mda_other s.mda.e6 a hM hne
  unfold main main_probe main_algorithm
  simp only [ha, hc, Run.after]
  split_ifs <;>
    simp_all [ERR_DATA, ERR_ADDRESS_TO_STRING, ERR_PROBE_SKEL, ERR_INVALID_ALGORITHM,
      probe_skel_calls, reaches_probe_skel]

/-- Witness for C1: the run of `-a traceroute -M 95,5 127.0.0.1` with every
library call succeeding. -/
theorem main_mda_option_with_other_algorithm_witness :
    statics_traceroute_M.mda.e6 ≠ 0
    ∧ statics_traceroute_M.algorithm_names.head? = some "traceroute"
    ∧ (main statics_traceroute_M env_ok 2 argv_host).exit_code = EXIT_FAILURE
    ∧ Call.pt_loop_create ∉ (main statics_traceroute_M env_ok 2 argv_host).calls
    ∧ (∀ n o, Call.pt_algorithm_add n o ∉ (main statics_traceroute_M env_ok 2 argv_host).calls)
    ∧ Call.pt_loop ∉ (main statics_traceroute_M env_ok 2 argv_host).calls
    ∧ (reaches_probe_skel env_ok = true →
        Call.perror "E: You cannot pass options related to mda when using another algorithm "
          ∈ (main statics_traceroute_M env_ok 2 argv_host).calls) :=
  ⟨by decide, rfl,
    main_mda_option_with_other_algorithm statics_traceroute_M env_ok 2 argv_host
      "traceroute" (by decide) rfl (by decide)⟩

end ParisTraceroute

/-! # Options and probe skeleton built by paris-traceroute -/

namespace ParisTraceroute

/-- The final value of a field after two lists of calls is the one left by
the second list when it writes the field, else the one left by the first. -/
theorem final_field_append (key : String) (l1 l2 : List Call) :
    final_field key (l1 ++ l2) = (final_field key l2).or (final_field key l1) := by
  simp [final_field, List.flatMap_append, List.reverse_append, List.find?_append]

/-- Calls without `probe_set_fields` leave no field. -/
theorem final_field_none (key : String) (l : List Call)
    (h : l.all not_set_fields = true) : final_field key l = none := by
  have : l.flatMap written_fields = [] := by
    rw [List.flatMap_eq_nil_iff]
    intro c hc
    have := List.all_eq_true.mp h c hc
    cases c <;> simp_all [not_set_fields, written_fields]
  simp [final_field, this]

/-- Calls without `pt_algorithm_add` can be skipped when looking for its
arguments. -/
theorem algorithm_add_args_append (l1 l2 : List Call)
    (h : l1.all not_algorithm_add = true) :
    algorithm_add_args (l1 ++ l2) = algorithm_add_args l2 := by
  have : l1.findSome? add_args = none := by
    rw [List.findSome?_eq_none_iff]
    intro c hc
    have := List.all_eq_true.mp h c hc
    cases c <;> simp_all [not_algorithm_add, add_args]
  simp [algorithm_add_args, List.findSome?_append, this]

/-- Calls without `network_set_timeout` can be skipped when looking for its
argument. -/
theorem network_timeout_append (l1 l2 : List Call)
    (h : l1.all not_set_timeout = true) :
    network_timeout (l1 ++ l2) = network_timeout l2 := by
  have : l1.findSome? timeout_arg = none := by
    rw [List.findSome?_eq_none_iff]
    intro c hc
    have := List.all_eq_true.mp h c hc
    cases c <;> simp_all [not_set_timeout, timeout_arg]
  simp [network_timeout, List.findSome?_append, this]

/-- Lines 257-295 write no probe field. -/
theorem main_loop_not_set_fields (e : Env) (a : Option String) (o : AlgOptions) :
    (main_loop e a o).calls.all not_set_fields = true := by
  unfold main_loop
  split_ifs <;>
    simp [not_set_fields, ERR_DATA, ERR_ADDRESS_TO_STRING, ERR_PROBE_SKEL,
      ERR_INVALID_ALGORITHM]

/-- Lines 225-295 write no probe field. -/
theorem main_algorithm_not_set_fields (s : Statics) (e : Env) (a : Option String)
    (dst_ip : String) :
    (main_algorithm s e a dst_ip).calls.all not_set_fields = true := by
  unfold main_algorithm
  split
  · simp [not_set_fields, ERR_DATA, ERR_ADDRESS_TO_STRING, ERR_PROBE_SKEL,
      ERR_INVALID_ALGORITHM]
  · split
    · simp [not_set_fields, ERR_DATA, ERR_ADDRESS_TO_STRING, ERR_PROBE_SKEL,
        ERR_INVALID_ALGORITHM]
    · rename_i getters options hd
      have hg : getters.all not_set_fields = true := by
        unfold dedicated_options at hd
        split_ifs at hd <;> simp at hd <;> simp [← hd.1, not_set_fields]
      simp only [Run.after, List.all_append, hg, main_loop_not_set_fields, Bool.and_true]

/-- The value of a field of the probe skeleton at the end of `main`: the one
written by lines 211-223 when the skeleton is created, none otherwise. -/
theorem main_final_field (s : Statics) (e : Env) (argc : Int)
    (argv : List (Option String)) (key : String) :
    final_field key (main s e argc argv).calls
      = if reaches_probe_skel e then final_field key (probe_skel_calls s e.dst_ip)
        else none := by
  unfold main
  by_cases h1 : e.opt_parse = 1
  swap
  · simp [h1, reaches_probe_skel, final_field, written_fields]
  by_cases h2 : e.malloc = true
  swap
  · simp [h1, h2, reaches_probe_skel, final_field, ERR_DATA, written_fields]
  by_cases h3 : e.address_from_string = 0
  swap
  · simp [h1, h2, h3, reaches_probe_skel, final_field, ERR_DATA, written_fields]
  by_cases h4 : e.address_to_string = 0
  swap
  · simp [h1, h2, h3, h4, reaches_probe_skel, final_field, ERR_DATA, ERR_ADDRESS_TO_STRING,
      written_fields]
  by_cases h5 : e.probe_create = true
  swap
  · simp [h1, h2, h3, h4, h5, reaches_probe_skel, final_field, ERR_DATA,
      ERR_ADDRESS_TO_STRING, ERR_PROBE_SKEL, main_probe, Run.after, written_fields]
  simp only [h1, h2, h3, h4, h5, reaches_probe_skel, main_probe, Run.after, ne_eq,
    not_true_eq_false, if_false, Bool.not_true, Bool.false_eq_true, beq_self_eq_true,
    Bool.and_self, if_true]
  rw [final_field_append, final_field_append,
    final_field_none _ _ (main_algorithm_not_set_fields _ _ _ _), final_field_append]
  cases hk : final_field key (probe_skel_calls s e.dst_ip) <;>
    simp [final_field, written_fields]

end ParisTraceroute

namespace ParisTraceroute

/-- Lines 257-295 call `pt_algorithm_add` with the name and options they are
given, once the loop is created. -/
theorem main_loop_add_args (e : Env) (a : Option String) (o : AlgOptions) :
    algorithm_add_args (main_loop e a o).calls
      = if e.pt_loop_create then some (a, o) else none := by
  unfold main_loop
  cases e.pt_loop_create <;> cases e.pt_algorithm_add <;>
    simp [algorithm_add_args, add_args, ERR_DATA, ERR_ADDRESS_TO_STRING, ERR_PROBE_SKEL,
      ERR_INVALID_ALGORITHM]
  split_ifs <;> simp [add_args]

/-- Lines 225-295 call `pt_algorithm_add` with the selected name and options,
once the loop is created. -/
theorem main_algorithm_add_args (s : Statics) (e : Env) :
    algorithm_add_args (main_algorithm s e s.algorithm_names.head? e.dst_ip).calls
      = if e.pt_loop_create then selected_options s e else none := by
  unfold main_algorithm selected_options
  split
  · simp [algorithm_add_args, add_args, ERR_DATA, ERR_ADDRESS_TO_STRING, ERR_PROBE_SKEL,
      ERR_INVALID_ALGORITHM]
  · split
    · simp [algorithm_add_args, add_args, ERR_DATA, ERR_ADDRESS_TO_STRING, ERR_PROBE_SKEL,
        ERR_INVALID_ALGORITHM]
    · rename_i getters options hd
      have hg : getters.all not_algorithm_add = true := by
        unfold dedicated_options at hd
        split_ifs at hd <;> simp at hd <;> simp [← hd.1, not_algorithm_add]
      simp only [Run.after]
      rw [algorithm_add_args_append _ _ hg, main_loop_add_args]

/-- The arguments `main` gives to `pt_algorithm_add`: those selected by
lines 225-255 when the run gets to the call, none otherwise. -/
theorem main_add_args (s : Statics) (e : Env) (argc : Int) (argv : List (Option String)) :
    algorithm_add_args (main s e argc argv).calls
      = if reaches_probe_skel e && e.pt_loop_create then selected_options s e else none := by
  unfold main
  by_cases h1 : e.opt_parse = 1
  swap
  · simp [h1, reaches_probe_skel, algorithm_add_args, add_args]
  by_cases h2 : e.malloc = true
  swap
  · simp [h1, h2, reaches_probe_skel, algorithm_add_args, add_args, ERR_DATA]
  by_cases h3 : e.address_from_string = 0
  swap
  · simp [h1, h2, h3, reaches_probe_skel, algorithm_add_args, add_args, ERR_DATA]
  by_cases h4 : e.address_to_string = 0
  swap
  · simp [h1, h2, h3, h4, reaches_probe_skel, algorithm_add_args, add_args, ERR_DATA,
      ERR_ADDRESS_TO_STRING]
  by_cases h5 : e.probe_create = true
  swap
  · simp [h1, h2, h3, h4, h5, reaches_probe_skel, algorithm_add_args, add_args, ERR_DATA,
      ERR_ADDRESS_TO_STRING, ERR_PROBE_SKEL, main_probe, Run.after]
  have hp : (probe_skel_calls s e.dst_ip).all not_algorithm_add = true := by
    unfold probe_skel_calls
    split_ifs <;> simp [not_algorithm_add]
  simp only [h1, h2, h3, h4, h5, reaches_probe_skel, main_probe, Run.after, ne_eq,
    not_true_eq_false, if_false, Bool.not_true, Bool.false_eq_true, beq_self_eq_true,
    Bool.and_self, if_true, Bool.true_and]
  rw [algorithm_add_args_append _ _ (by simp [not_algorithm_add]),
    algorithm_add_args_append _ _ (by simp [not_algorithm_add, hp]),
    main_algorithm_add_args]

/-- The timeout `main` gives to `network_set_timeout`: `wait[0]`, once the
target is parsed and converted. -/
theorem main_network_timeout (s : Statics) (e : Env) (argc : Int)
    (argv : List (Option String)) :
    network_timeout (main s e argc argv).calls
      = if e.opt_parse = 1 ∧ e.malloc = true ∧ e.address_from_string = 0
          ∧ e.address_to_string = 0 then some s.wait.e0 else none := by
  unfold main
  by_cases h1 : e.opt_parse = 1
  swap
  · simp [h1, network_timeout, timeout_arg]
  by_cases h2 : e.malloc = true
  swap
  · simp [h1, h2, network_timeout, timeout_arg, ERR_DATA]
  by_cases h3 : e.address_from_string = 0
  swap
  · simp [h1, h2, h3, network_timeout, timeout_arg, ERR_DATA]
  by_cases h4 : e.address_to_string = 0
  swap
  · simp [h1, h2, h3, h4, network_timeout, timeout_arg, ERR_DATA, ERR_ADDRESS_TO_STRING]
  simp only [h1, h2, h3, h4, main_probe, Run.after, ne_eq, not_true_eq_false, if_false,
    Bool.not_true, Bool.false_eq_true, and_self, if_true]
  rw [network_timeout_append _ _ (by simp [not_set_timeout])]
  split_ifs <;> simp [network_timeout, timeout_arg, Run.after]

end ParisTraceroute

namespace ParisTraceroute

/-- C6, as stated, fails on `paris-traceroute 127.0.0.1`: `-M` is not given
(`mda[6]` is 0), every library call succeeds, and the MDA options handed to
`pt_algorithm_add` carry the bound 95, which is not 0.05. -/
theorem mda_default_bound_is_95 :
    initial.mda.e6 = 0
    ∧ handed_mda_options (main initial env_ok 2 argv_host).calls
        = some ⟨⟨1, 30, some "127.0.0.1"⟩, 95, 5⟩
    ∧ ∃ o, handed_mda_options (main initial env_ok 2 argv_host).calls = some o
        ∧ (o.bound : ℚ) ≠ 5 / 100 := by
  refine ⟨rfl, by decide, ⟨⟨1, 30, some "127.0.0.1"⟩, 95, 5⟩, by decide, ?_⟩
  norm_num

/-- C6, amended: when `-M` is not given (the array `mda` keeps its static
initialiser), every MDA options record handed to `pt_algorithm_add` carries
the defaults of the array, bound 95 and max_branch 5; and it is handed over
whenever the algorithm is mda and the run gets to the call. -/
theorem mda_defaults_handed (s : Statics) (e : Env) (argc : Int)
    (argv : List (Option String)) (hM : s.mda = initial.mda) :
    (∀ o, handed_mda_options (main s e argc argv).calls = some o →
        o.bound = 95 ∧ o.max_branch = 5)
    ∧ (s.algorithm_names.head? = some "mda" → reaches_probe_skel e = true →
        e.pt_loop_create = true →
        handed_mda_options (main s e argc argv).calls
          = some ⟨⟨s.first_ttl.e0, s.max_ttl.e0, some e.dst_ip⟩, 95, 5⟩) := by
  have h0 : s.mda.e0 = 95 := by rw [hM]; rfl
  have h3 : s.mda.e3 = 5 := by rw [hM]; rfl
  have h6 : s.mda.e6 = 0 := by rw [hM]; rfl
  constructor
  · intro o ho
    unfold handed_mda_options at ho
    rw [main_add_args] at ho
    by_cases hc : (reaches_probe_skel e && e.pt_loop_create) = true
    swap
    · simp [hc] at ho
    rw [if_pos hc] at ho
    unfold selected_options check_mda dedicated_options at ho
    simp only [h6, h0, h3, ne_eq, not_true_eq_false, if_false] at ho
    split_ifs at ho
    simp at ho
    rw [← ho]
    exact ⟨rfl, rfl⟩
  · intro ha hr hl
    unfold handed_mda_options
    rw [main_add_args]
    simp [hr, hl, selected_options, check_mda, dedicated_options, h6, h0, h3, ha, streq]

/-- Witness for the amended C6: the run of `paris-traceroute 127.0.0.1`. -/
theorem mda_defaults_handed_witness :
    initial.mda = initial.mda
    ∧ handed_mda_options (main initial env_ok 2 argv_host).calls
        = some ⟨⟨1, 30, some "127.0.0.1"⟩, 95, 5⟩ :=
  ⟨rfl, (mda_defaults_handed initial env_ok 2 argv_host rfl).2 rfl rfl rfl⟩

/-- C7: for every value of `-d` within its declared range, the `dst_port`
field the probe skeleton ends with is 53 when `-U` is set and the `-d` value
when it is not; that value is 30000 when `-d` is absent. -/
theorem dst_port_final_value (s : Statics) (e : Env) (argc : Int)
    (argv : List (Option String)) (hd : s.dst_port.e0 ≤ 65535) :
    final_field "dst_port" (main s e argc argv).calls
      = (if reaches_probe_skel e then
          some (Field.i16 "dst_port" (if s.is_udp ≠ 0 then 53 else s.dst_port.e0))
        else none)
    ∧ initial.dst_port.e0 = 30000 := by
  refine ⟨?_, rfl⟩
  rw [main_final_field]
  have hlt : s.dst_port.e0 < 65536 := by omega
  have hmod : s.dst_port.e0 % 65536 = s.dst_port.e0 := Nat.mod_eq_of_lt hlt
  have hskel : final_field "dst_port" (probe_skel_calls s e.dst_ip)
      = some (Field.i16 "dst_port" (if s.is_udp ≠ 0 then 53 else s.dst_port.e0)) := by
    unfold probe_skel_calls
    by_cases hu : s.is_udp = 0
    · simp [hu, final_field, written_fields, STR, I16, Field.key, hmod, hlt]
    · simp [hu, final_field, written_fields, STR, I16, Field.key, hmod, hlt]
  rw [hskel]

/-- Witness for C7: the run of `-U -d 4000 127.0.0.1` ends with port 53, the
run of `-d 4000 127.0.0.1` with port 4000. -/
theorem dst_port_final_value_witness :
    final_field "dst_port"
        (main { initial with is_udp := 1, dst_port := ⟨4000, 0, 65535⟩ } env_ok 2 argv_host).calls
      = some (Field.i16 "dst_port" 53)
    ∧ final_field "dst_port"
        (main { initial with dst_port := ⟨4000, 0, 65535⟩ } env_ok 2 argv_host).calls
      = some (Field.i16 "dst_port" 4000) :=
  ⟨(dst_port_final_value { initial with is_udp := 1, dst_port := ⟨4000, 0, 65535⟩ }
      env_ok 2 argv_host (by decide)).1,
    (dst_port_final_value { initial with dst_port := ⟨4000, 0, 65535⟩ }
      env_ok 2 argv_host (by decide)).1⟩

/-- C8: with no option on the command line (the variables keep their static
initialisers) and a run that gets to `pt_algorithm_add`, `main` hands over the
algorithm mda with min_ttl 1 and max_ttl 30, sets the network timeout to 5
seconds and ends the probe skeleton with src_port 3083 and dst_port 30000;
each default lies within the declared range of its parameter. -/
theorem defaults_without_options (e : Env) (argc : Int) (argv : List (Option String))
    (hr : reaches_probe_skel e = true) (hl : e.pt_loop_create = true) :
    initial.algorithm_names.head? = some "mda"
    ∧ algorithm_add_args (main initial e argc argv).calls
        = some (some "mda", AlgOptions.mda ⟨⟨1, 30, some e.dst_ip⟩, 95, 5⟩)
    ∧ network_timeout (main initial e argc argv).calls = some 5
    ∧ final_field "src_port" (main initial e argc argv).calls
        = some (Field.i16 "src_port" 3083)
    ∧ final_field "dst_port" (main initial e argc argv).calls
        = some (Field.i16 "dst_port" 30000)
    ∧ (initial.first_ttl.e1 ≤ initial.first_ttl.e0
        ∧ initial.first_ttl.e0 ≤ initial.first_ttl.e2)
    ∧ (initial.max_ttl.e1 ≤ initial.max_ttl.e0 ∧ initial.max_ttl.e0 ≤ initial.max_ttl.e2)
    ∧ (initial.wait.e1 ≤ initial.wait.e0 ∧ initial.wait.e0 ≤ initial.wait.e2)
    ∧ (initial.src_port.e1 ≤ initial.src_port.e0
        ∧ initial.src_port.e0 ≤ initial.src_port.e2)
    ∧ (initial.dst_port.e1 ≤ initial.dst_port.e0
        ∧ initial.dst_port.e0 ≤ initial.dst_port.e2) := by
  have hr4 : e.opt_parse = 1 ∧ e.malloc = true ∧ e.address_from_string = 0
      ∧ e.address_to_string = 0 := by
    have h := hr
    simp only [reaches_probe_skel, Bool.and_eq_true, beq_iff_eq] at h
    exact ⟨h.1.1.1.1, h.1.1.1.2, h.1.1.2, h.1.2⟩
  refine ⟨rfl, ?_, ?_, ?_, ?_, by decide, by decide, ?_, by decide, by decide⟩
  · rw [main_add_args]
    simp [hr, hl, selected_options, check_mda, dedicated_options, initial, streq]
  · rw [main_network_timeout, if_pos hr4]
    rfl
  · rw [main_final_field, if_pos hr]
    simp [probe_skel_calls, initial, final_field, written_fields, STR, I16, Field.key]
  · rw [main_final_field, if_pos hr]
    simp [probe_skel_calls, initial, final_field, written_fields, STR, I16, Field.key]
  · norm_num [initial, INT_MAX]

/-- Witness for C8: the run of `paris-traceroute 127.0.0.1` with every library
call succeeding. -/
theorem defaults_without_options_witness :
    algorithm_add_args (main initial env_ok 2 argv_host).calls
        = some (some "mda", AlgOptions.mda ⟨⟨1, 30, some "127.0.0.1"⟩, 95, 5⟩)
    ∧ network_timeout (main initial env_ok 2 argv_host).calls = some 5
    ∧ final_field "src_port" (main initial env_ok 2 argv_host).calls
        = some (Field.i16 "src_port" 3083)
    ∧ final_field "dst_port" (main initial env_ok 2 argv_host).calls
        = some (Field.i16 "dst_port" 30000) :=
  have h := defaults_without_options env_ok 2 argv_host rfl rfl
  ⟨h.2.1, h.2.2.1, h.2.2.2.1, h.2.2.2.2.1⟩

end ParisTraceroute

/-! # Rendering by the event handler of paris-traceroute -/

namespace ParisTraceroute

/-- C10: `user_handler` dumps the full lattice if and only if the event is
`ALGORITHM_TERMINATED` and the algorithm name is not mda; it dumps a single
link if and only if the event is an `ALGORITHM_EVENT`, the name is mda and the
subtype is `MDA_NEW_LINK`; no event produces two dumps or any other dump, and
for a given name the two kinds of dump never both occur, so a run uses one
rendering mode only. -/
theorem user_handler_rendering (do_resolv : Nat) (a : String) (dst_ip : Option String)
    (options : Option AlgOptions) (event : event_t) :
    (Action.lattice_dump event.data ∈ user_handler do_resolv event ⟨some a, dst_ip, options⟩
      ↔ event.type = event_type_t.ALGORITHM_TERMINATED ∧ a ≠ "mda")
    ∧ (Action.mda_link_dump event.mda_event.data do_resolv
        ∈ user_handler do_resolv event ⟨some a, dst_ip, options⟩
      ↔ event.type = event_type_t.ALGORITHM_EVENT ∧ a = "mda"
        ∧ event.mda_event.type = mda_event_type_t.MDA_NEW_LINK)
    ∧ (∀ x ∈ user_handler do_resolv event ⟨some a, dst_ip, options⟩,
        x = Action.lattice_dump event.data
        ∨ x = Action.mda_link_dump event.mda_event.data do_resolv
        ∨ x = Action.pt_loop_terminate)
    ∧ ((user_handler do_resolv event ⟨some a, dst_ip, options⟩).filter
        (fun x => x != Action.pt_loop_terminate)).length ≤ 1
    ∧ (∀ (event2 : event_t) (lattice link : Ptr) (r : Nat),
        ¬ (Action.lattice_dump lattice ∈ user_handler do_resolv event ⟨some a, dst_ip, options⟩
          ∧ Action.mda_link_dump link r
            ∈ user_handler do_resolv event2 ⟨some a, dst_ip, options⟩)) := by
  obtain ⟨ty, data, ⟨mty, mdata⟩⟩ := event
  by_cases ha : a = "mda"
  · refine ⟨?_, ?_, ?_, ?_, ?_⟩
    · cases ty <;> cases mty <;> simp [user_handler, streq, ha]
    · cases ty <;> cases mty <;> simp [user_handler, streq, ha]
    · cases ty <;> cases mty <;> simp [user_handler, streq, ha]
    · cases ty <;> cases mty <;> simp [user_handler, streq, ha]
    · intro event2 lattice link r
      cases ty <;> cases mty <;> simp [user_handler, streq, ha]
  · refine ⟨?_, ?_, ?_, ?_, ?_⟩
    · cases ty <;> simp [user_handler, streq, ha]
    · cases ty <;> cases mty <;> simp [user_handler, streq, ha]
    · cases ty <;> cases mty <;> simp [user_handler, streq, ha]
    · cases ty <;> cases mty <;> simp [user_handler, streq, ha]
    · intro event2 lattice link r
      obtain ⟨ty2, data2, ⟨mty2, mdata2⟩⟩ := event2
      cases ty2 <;> simp [user_handler, streq, ha]

end ParisTraceroute

/-! # Classical and Paris traceroute in the front-end -/

namespace ParisTraceroute

/-- Lines 257-295 make the same calls for two algorithm names, the name
apart. -/
theorem main_loop_forget_name (e : Env) (a a2 : Option String) (o : AlgOptions) :
    (main_loop e a o).calls.map forget_name = (main_loop e a2 o).calls.map forget_name
    ∧ (main_loop e a o).exit_code = (main_loop e a2 o).exit_code := by
  unfold main_loop
  split_ifs <;> simp [forget_name]

/-- Lines 225-295 make the same calls for the names traceroute and
paris-traceroute, the name apart. -/
theorem main_algorithm_forget_name (s : Statics) (names1 names2 : List String) (e : Env)
    (dst_ip : String) :
    (main_algorithm { s with algorithm_names := names1 } e (some "traceroute")
        dst_ip).calls.map forget_name
      = (main_algorithm { s with algorithm_names := names2 } e (some "paris-traceroute")
        dst_ip).calls.map forget_name
    ∧ (main_algorithm { s with algorithm_names := names1 } e (some "traceroute")
        dst_ip).exit_code
      = (main_algorithm { s with algorithm_names := names2 } e (some "paris-traceroute")
        dst_ip).exit_code := by
  unfold main_algorithm
  by_cases h6 : s.mda.e6 = 0
  · simp only [check_mda, h6, ne_eq, not_true_eq_false, if_false, dedicated_options, streq,
      beq_self_eq_true, Bool.true_or, Bool.or_true, if_true, Run.after, List.map_append]
    have hl := main_loop_forget_name e (some "traceroute") (some "paris-traceroute")
      (AlgOptions.traceroute
        { e.traceroute_get_default_options with
          min_ttl := s.first_ttl.e0, max_ttl := s.max_ttl.e0, dst_ip := some dst_ip })
    exact ⟨by rw [hl.1], hl.2⟩
  · simp [check_mda, h6, streq]

/-- C13: for the algorithm names traceroute and paris-traceroute and otherwise
equal values of the command line, `main` makes the same calls, the name apart:
the same probe skeleton (protocols, payload size, dst_ip, dst_port, and
src_port set to the `-s` value in both) and the same traceroute options
(min_ttl, max_ttl, dst_ip); what is given to `pt_algorithm_add` differs by the
name only. -/
theorem traceroute_and_paris_differ_by_name (s : Statics) (names1 names2 : List String)
    (e : Env) (argc : Int) (argv : List (Option String))
    (h1 : names1.head? = some "traceroute") (h2 : names2.head? = some "paris-traceroute") :
    (main { s with algorithm_names := names1 } e argc argv).calls.map forget_name
      = (main { s with algorithm_names := names2 } e argc argv).calls.map forget_name
    ∧ (main { s with algorithm_names := names1 } e argc argv).exit_code
      = (main { s with algorithm_names := names2 } e argc argv).exit_code
    ∧ probe_skel_calls { s with algorithm_names := names1 } e.dst_ip
      = probe_skel_calls { s with algorithm_names := names2 } e.dst_ip
    ∧ (∀ key, final_field key (main { s with algorithm_names := names1 } e argc argv).calls
      = final_field key (main { s with algorithm_names := names2 } e argc argv).calls)
    ∧ final_field "src_port" (main { s with algorithm_names := names1 } e argc argv).calls
      = (if reaches_probe_skel e then some (Field.i16 "src_port" (s.src_port.e0 % 2 ^ 16))
        else none)
    ∧ (s.mda.e6 = 0 → reaches_probe_skel e = true → e.pt_loop_create = true →
        algorithm_add_args (main { s with algorithm_names := names1 } e argc argv).calls
          = some (some "traceroute",
              AlgOptions.traceroute ⟨s.first_ttl.e0, s.max_ttl.e0, some e.dst_ip⟩)
        ∧ algorithm_add_args (main { s with algorithm_names := names2 } e argc argv).calls
          = some (some "paris-traceroute",
              AlgOptions.traceroute ⟨s.first_ttl.e0, s.max_ttl.e0, some e.dst_ip⟩)) := by
  refine ⟨?_, ?_, rfl, ?_, ?_, ?_⟩
  · have ha := (main_algorithm_forget_name s names1 names2 e e.dst_ip).1
    unfold main main_probe
    simp only [h1, h2, Run.after]
    split_ifs <;> simp [forget_name, probe_skel_calls, ha]
  · have ha := (main_algorithm_forget_name s names1 names2 e e.dst_ip).2
    unfold main main_probe
    simp only [h1, h2, Run.after]
    split_ifs <;> simp [ha]
  · intro key
    rw [main_final_field, main_final_field]
    rfl
  · rw [main_final_field]
    have hskel : final_field "src_port"
        (probe_skel_calls { s with algorithm_names := names1 } e.dst_ip)
        = some (Field.i16 "src_port" (s.src_port.e0 % 2 ^ 16)) := by
      unfold probe_skel_calls
      by_cases hu : s.is_udp = 0
      · simp [hu, final_field, written_fields, STR, I16, Field.key]
      · simp [hu, final_field, written_fields, STR, I16, Field.key]
    rw [hskel]
  · intro h6 hr hl
    rw [main_add_args, main_add_args]
    simp [hr, hl, selected_options, check_mda, dedicated_options, h6, h1, h2, streq]

/-- Witness for C13: the runs of `-a traceroute 127.0.0.1` and of
`-a paris-traceroute 127.0.0.1`. -/
theorem traceroute_and_paris_differ_by_name_witness :
    (main { initial with algorithm_names := ["traceroute", "mda", "paris-traceroute"] }
        env_ok 2 argv_host).calls.map forget_name
      = (main { initial with algorithm_names := ["paris-traceroute", "traceroute", "mda"] }
        env_ok 2 argv_host).calls.map forget_name
    ∧ algorithm_add_args
        (main { initial with algorithm_names := ["traceroute", "mda", "paris-traceroute"] }
          env_ok 2 argv_host).calls
      = some (some "traceroute", AlgOptions.traceroute ⟨1, 30, some "127.0.0.1"⟩)
    ∧ algorithm_add_args
        (main { initial with algorithm_names := ["paris-traceroute", "traceroute", "mda"] }
          env_ok 2 argv_host).calls
      = some (some "paris-traceroute", AlgOptions.traceroute ⟨1, 30, some "127.0.0.1"⟩) :=
  have h := traceroute_and_paris_differ_by_name initial
    ["traceroute", "mda", "paris-traceroute"] ["paris-traceroute", "traceroute", "mda"]
    env_ok 2 argv_host rfl rfl
  ⟨h.1, (h.2.2.2.2.2 rfl rfl rfl).1, (h.2.2.2.2.2 rfl rfl rfl).2⟩

end ParisTraceroute

/-! # Links dumped for a lattice element -/

namespace ParisTraceroute

/-- The dumps of the loop of `result_dump` (lines 104-109) are those of the
successors, in the order of the array. -/
theorem range_map_get (link0 : Option Ptr) (do_resolv : Nat) (next : List lattice_elt_t) :
    ((List.range next.length).map fun i =>
        (⟨link0, (dynarray_get_ith_element next i).bind lattice_elt_get_data, do_resolv⟩ :
          link_dump))
      = next.map fun succ => ⟨link0, lattice_elt_get_data succ, do_resolv⟩ := by
  apply List.ext_getElem
  · simp
  · intro i h1 h2
    simp only [List.length_map, List.length_range] at h1
    simp [dynarray_get_ith_element, List.getElem?_eq_getElem h1]

/-- C14: for every lattice element with `n` successors (`n` within the range
of the `unsigned int` counter), `result_dump` makes exactly `max n 1` calls
`mda_link_dump`, each with the data of the element as first endpoint: one with
a NULL second endpoint when `n = 0`, otherwise one per successor, in the order
in which the successors are stored, with the data of that successor as second
endpoint. -/
theorem result_dump_links (do_resolv : Nat) (elt : lattice_elt_t)
    (hn : elt.next.length < 2 ^ 32) :
    (result_dump do_resolv elt).length = max elt.next.length 1
    ∧ (∀ d ∈ result_dump do_resolv elt,
        d.link0 = lattice_elt_get_data elt ∧ d.do_resolv = do_resolv)
    ∧ (elt.next.length = 0 →
        result_dump do_resolv elt = [⟨lattice_elt_get_data elt, none, do_resolv⟩])
    ∧ (elt.next.length ≠ 0 →
        result_dump do_resolv elt
          = elt.next.map fun succ =>
              ⟨lattice_elt_get_data elt, lattice_elt_get_data succ, do_resolv⟩) := by
  have hmod : dynarray_get_size elt.next % 2 ^ 32 = elt.next.length :=
    Nat.mod_eq_of_lt hn
  have h0 : elt.next.length = 0 →
      result_dump do_resolv elt = [⟨lattice_elt_get_data elt, none, do_resolv⟩] := by
    intro h
    unfold result_dump
    simp only [hmod, h, if_true, List.range_zero, List.map_nil, List.append_nil]
  have h1 : elt.next.length ≠ 0 →
      result_dump do_resolv elt
        = elt.next.map fun succ =>
            ⟨lattice_elt_get_data elt, lattice_elt_get_data succ, do_resolv⟩ := by
    intro h
    unfold result_dump
    simp only [hmod, h, if_false, List.nil_append]
    exact range_map_get _ _ _
  refine ⟨?_, ?_, h0, h1⟩
  · by_cases h : elt.next.length = 0
    · rw [h0 h, h]
      rfl
    · rw [h1 h, List.length_map]
      omega
  · intro d hd
    by_cases h : elt.next.length = 0
    · rw [h0 h] at hd
      simp only [List.mem_singleton] at hd
      subst hd
      exact ⟨rfl, rfl⟩
    · rw [h1 h, List.mem_map] at hd
      obtain ⟨succ, _, rfl⟩ := hd
      exact ⟨rfl, rfl⟩

/-- Witness for C14: an element with two successors, and one with none. -/
theorem result_dump_links_witness :
    result_dump 1
        (lattice_elt_t.mk (some 10)
          [lattice_elt_t.mk (some 20) [], lattice_elt_t.mk (some 30) []])
      = [⟨some 10, some 20, 1⟩, ⟨some 10, some 30, 1⟩]
    ∧ result_dump 1 (lattice_elt_t.mk (some 10) []) = [⟨some 10, none, 1⟩] :=
  ⟨(result_dump_links 1
      (lattice_elt_t.mk (some 10)
        [lattice_elt_t.mk (some 20) [], lattice_elt_t.mk (some 30) []])
      (by simp [lattice_elt_t.next])).2.2.2 (by simp [lattice_elt_t.next]),
    (result_dump_links 1 (lattice_elt_t.mk (some 10) [])
      (by simp [lattice_elt_t.next])).2.2.1 rfl⟩

end ParisTraceroute

/-! # Loop termination requested by the event handlers -/

/-- C11: in both front-ends the event handler calls `pt_loop_terminate`
exactly once on an `ALGORITHM_TERMINATED` event, whatever the algorithm name,
and not at all on an event of any other type (`user_handler` of
paris-traceroute, `loop_handler` of ping). -/
theorem handlers_terminate_exactly_on_terminated (do_resolv : Nat)
    (event : ParisTraceroute.event_t) (data : ParisTraceroute.paris_traceroute_data_t)
    (ping_event : Ping.event_t) :
    (ParisTraceroute.user_handler do_resolv event data).count
        ParisTraceroute.Action.pt_loop_terminate
      = (if event.type = ParisTraceroute.event_type_t.ALGORITHM_TERMINATED then 1 else 0)
    ∧ (Ping.loop_handler ping_event).count Ping.HandlerCall.pt_loop_terminate
      = (if ping_event.type = Ping.event_type_t.ALGORITHM_TERMINATED then 1 else 0) := by
  obtain ⟨ty, d, ⟨mty, md⟩⟩ := event
  obtain ⟨pty, pissuer, pd⟩ := ping_event
  constructor
  · cases hs : ParisTraceroute.streq data.algorithm "mda" <;> cases ty <;> cases mty <;>
      simp [ParisTraceroute.user_handler, hs]
  · cases pty <;> simp [Ping.loop_handler]

/-! # The target located by the scan of the argument vector -/

namespace ParisTraceroute

/-- On non-NULL cells followed by a NULL cell, the scan started at `k` stops on
the NULL cell as long as `argc` is not reached before. -/
theorem scan_from_cells (argc : Int) (ys : List String) (rest : List (Option String))
    (k : Nat) (h : ((k + ys.length : Nat) : Int) ≤ argc) :
    scan_from argc (ys.map some ++ none :: rest) k = some (k + ys.length) := by
  induction ys generalizing k with
  | nil => simp [scan_from]
  | cons y ys ih =>
    have hl : (y :: ys).length = ys.length + 1 := rfl
    have hk : (k : Int) < argc := by omega
    have hk1 : (((k + 1) + ys.length : Nat) : Int) ≤ argc := by omega
    simp only [List.map_cons, List.cons_append, scan_from, hk, if_true, List.append_eq]
    rw [ih (k + 1) hk1, hl]
    congr 1
    omega

/-- On the same cells, the scan reads the indices from `k` up to that of the
NULL cell and no other. -/
theorem scan_reads_from_cells (argc : Int) (ys : List String) (rest : List (Option String))
    (k : Nat) (h : ((k + ys.length : Nat) : Int) ≤ argc) :
    ∀ i ∈ scan_reads_from argc (ys.map some ++ none :: rest) k, i ≤ k + ys.length := by
  induction ys generalizing k with
  | nil => simp [scan_reads_from]
  | cons y ys ih =>
    have hl : (y :: ys).length = ys.length + 1 := rfl
    have hk : (k : Int) < argc := by omega
    have hk1 : (((k + 1) + ys.length : Nat) : Int) ≤ argc := by omega
    intro i hi
    simp only [List.map_cons, List.cons_append, scan_reads_from, hk, if_true,
      List.mem_cons, List.append_eq] at hi
    rcases hi with hi | hi
    · omega
    · have := ih (k + 1) hk1 i hi
      omega

end ParisTraceroute

namespace ParisTraceroute

/-- Once the options are parsed and the data allocated, `main` parses the
string `argv[i - 1]` left by the scan. -/
theorem main_parses_target (s : Statics) (e : Env) (argc : Int)
    (argv : List (Option String)) (h1 : e.opt_parse = 1) (h2 : e.malloc = true) :
    Call.address_from_string (target argc argv) ∈ (main s e argc argv).calls := by
  unfold main
  simp only [h1, h2, ne_eq, not_true_eq_false, if_false, Bool.not_true, Bool.false_eq_true]
  split_ifs <;> simp [Run.after]

/-- C12: for every argument vector of `argc >= 1` non-NULL entries followed by
a NULL terminator at `argv[argc]`, the scan of lines 176-177 ends with
`i = argc`, so that the target `argv[i - 1]` parsed by `main` is `argv[argc -
1]`, the element the ping variant takes; and the scan reads no index greater
than `argc`. -/
theorem scan_ends_at_argc (xs : List String) (rest : List (Option String))
    (s : Statics) (e : Env) (hx : xs ≠ []) :
    scan (xs.length : Int) (xs.map some ++ none :: rest) = some xs.length
    ∧ target (xs.length : Int) (xs.map some ++ none :: rest) = xs.getLast?
    ∧ (xs.map some ++ none :: rest).get? (xs.length - 1) = some xs.getLast?
    ∧ Ping.last_arg (xs.length : Int) (xs.map some ++ none :: rest) = xs.getLast?
    ∧ (∀ i ∈ scan_reads (xs.length : Int) (xs.map some ++ none :: rest), i ≤ xs.length)
    ∧ (e.opt_parse = 1 → e.malloc = true →
        Call.address_from_string xs.getLast?
          ∈ (main s e (xs.length : Int) (xs.map some ++ none :: rest)).calls) := by
  have hscan : scan (xs.length : Int) (xs.map some ++ none :: rest) = some xs.length := by
    have := scan_from_cells (xs.length : Int) xs rest 0 (by simp)
    simpa [scan] using this
  have hreads : ∀ i ∈ scan_reads (xs.length : Int) (xs.map some ++ none :: rest),
      i ≤ xs.length := by
    have := scan_reads_from_cells (xs.length : Int) xs rest 0 (by simp)
    simpa [scan_reads] using this
  obtain ⟨ys, y, rfl⟩ : ∃ ys y, xs = ys ++ [y] := by
    rcases List.eq_nil_or_concat xs with h | ⟨ys, y, h⟩
    · exact absurd h hx
    · exact ⟨ys, y, by simpa using h⟩
  have hget : (List.map some (ys ++ [y]) ++ none :: rest).get? ys.length = some (some y) := by
    have hl : List.map some (ys ++ [y]) ++ none :: rest
        = List.map some ys ++ (some y :: none :: rest) := by simp
    rw [hl, List.get?_eq_getElem?, List.getElem?_append_right (by simp)]
    simp
  have htarget : target ((ys ++ [y]).length : Int) (List.map some (ys ++ [y]) ++ none :: rest)
      = (ys ++ [y]).getLast? := by
    unfold target
    rw [hscan]
    simp only [List.length_append, List.length_singleton]
    rw [hget]
    simp
  refine ⟨hscan, htarget, ?_, ?_, hreads, ?_⟩
  · simp only [List.length_append, List.length_singleton, Nat.add_sub_cancel]
    rw [hget]
    simp
  · unfold Ping.last_arg
    have h1 : (1 : Int) ≤ ((ys ++ [y]).length : Int) := by
      simp only [List.length_append, List.length_singleton]
      omega
    have h2 : (((ys ++ [y]).length : Int) - 1).toNat = ys.length := by
      simp only [List.length_append, List.length_singleton]
      omega
    rw [if_pos h1, h2, hget]
    simp
  · intro h1 h2
    rw [← htarget]
    exact main_parses_target s e _ _ h1 h2

/-- Witness for C12: the argument vector of `paris-traceroute 127.0.0.1`. -/
theorem scan_ends_at_argc_witness :
    scan 2 argv_host = some 2
    ∧ target 2 argv_host = some "127.0.0.1"
    ∧ Ping.last_arg 2 argv_host = some "127.0.0.1"
    ∧ (∀ i ∈ scan_reads 2 argv_host, i ≤ 2) :=
  have h := scan_ends_at_argc ["paris-traceroute", "127.0.0.1"] [] initial env_ok
    (by decide)
  ⟨h.1, h.2.1, h.2.2.2.1, h.2.2.2.2.1⟩

end ParisTraceroute

/-! # Properties of the ping front-end -/

namespace Ping

/-- When `check_options` returns false, `main` exits with `EXIT_FAILURE`
and creates no probe, no loop and no algorithm instance, whatever the library
calls return. -/
theorem main_rejected_options (s : Statics) (e : Env) (argc : Int)
    (argv : List (Option String))
    (h : (check_options s.is_icmp s.is_tcp s.is_udp s.is_ipv4 s.is_ipv6 s.set_flow_label
      s.dst_port.e3 s.src_port.e3 s.protocol_names.head? s.algorithm_names.head?).1 = false) :
    (main s e argc argv).exit_code = EXIT_FAILURE
    ∧ Call.probe_create ∉ (main s e argc argv).calls
    ∧ Call.pt_loop_create ∉ (main s e argc argv).calls
    ∧ (∀ n, Call.pt_algorithm_add n ∉ (main s e argc argv).calls)
    ∧ Call.pt_loop ∉ (main s e argc argv).calls := by
  unfold main
  simp only [h, init_options]
  cases e.options_create <;> simp [ERR_CHECK_OPTIONS]
  split_ifs <;> simp [EXIT_FAILURE, stderr_line]

/-- When the options are parsed and `check_options` returns false, what
`main` writes to stderr is what `check_options` wrote. -/
theorem main_rejected_options_stderr (s : Statics) (e : Env) (argc : Int)
    (argv : List (Option String))
    (hc : e.options_create = true) (hp : e.options_parse = 1)
    (h : (check_options s.is_icmp s.is_tcp s.is_udp s.is_ipv4 s.is_ipv6 s.set_flow_label
      s.dst_port.e3 s.src_port.e3 s.protocol_names.head? s.algorithm_names.head?).1 = false) :
    stderr_writes (main s e argc argv).calls
      = (check_options s.is_icmp s.is_tcp s.is_udp s.is_ipv4 s.is_ipv6 s.set_flow_label
          s.dst_port.e3 s.src_port.e3 s.protocol_names.head?
          s.algorithm_names.head?).2.map stderr_line := by
  unfold main
  simp only [h, init_options, hc, hp]
  simp only [ERR_CHECK_OPTIONS, stderr_writes]
  simp only [Bool.not_false, Bool.not_true, if_true, if_false, Bool.false_eq_true, if_pos,
    ne_eq, not_true_eq_false, List.filter_append, List.filter_map]
  have hfil : ∀ l : List String,
      l.filter ((fun c => match c with
        | Call.fprintf_stderr _ _ => true
        | Call.perror_gai_strerror _ => true
        | _ => false) ∘ stderr_line) = l := by
    intro l
    exact List.filter_eq_self.mpr (fun _ _ => rfl)
  simp [hfil]

/-- C2: when both `-4` and `-6` are set, for every value of the other
arguments `check_options` returns false and writes the single line
"Cannot set both ip versions" (no later check runs), and `main` exits with a
non-zero code without creating a probe, a loop or an algorithm instance; once
the options are parsed that line is all `main` writes to stderr. -/
theorem both_ip_versions_rejected (s : Statics) (e : Env) (argc : Int)
    (argv : List (Option String)) (h4 : s.is_ipv4 = true) (h6 : s.is_ipv6 = true) :
    (∀ (is_icmp is_tcp is_udp set_flow_label : Bool) (dst_port_enabled src_port_enabled : Int)
        (protocol_name algorithm_name : Option String),
        check_options is_icmp is_tcp is_udp s.is_ipv4 s.is_ipv6 set_flow_label
          dst_port_enabled src_port_enabled protocol_name algorithm_name
          = (false, ["Cannot set both ip versions\n"]))
    ∧ (main s e argc argv).exit_code ≠ 0
    ∧ Call.probe_create ∉ (main s e argc argv).calls
    ∧ Call.pt_loop_create ∉ (main s e argc argv).calls
    ∧ (∀ n, Call.pt_algorithm_add n ∉ (main s e argc argv).calls)
    ∧ (e.options_create = true → e.options_parse = 1 →
        stderr_writes (main s e argc argv).calls
          = [Call.fprintf_stderr "Cannot set both ip versions\n" []]) := by
  have hall : ∀ (is_icmp is_tcp is_udp set_flow_label : Bool)
      (dst_port_enabled src_port_enabled : Int) (protocol_name algorithm_name : Option String),
      check_options is_icmp is_tcp is_udp s.is_ipv4 s.is_ipv6 set_flow_label
        dst_port_enabled src_port_enabled protocol_name algorithm_name
        = (false, ["Cannot set both ip versions\n"]) := by
    intros
    simp [check_options, seq_and, check_ip_version, h4, h6]
  have hfalse := congrArg Prod.fst (hall s.is_icmp s.is_tcp s.is_udp s.set_flow_label
    s.dst_port.e3 s.src_port.e3 s.protocol_names.head? s.algorithm_names.head?)
  obtain ⟨hx, hp, hl, ha, _⟩ := main_rejected_options s e argc argv hfalse
  refine ⟨hall, ?_, hp, hl, ha, ?_⟩
  · rw [hx]; decide
  · intro hc hpar
    rw [main_rejected_options_stderr s e argc argv hc hpar hfalse, hall]
    rfl

/-- Witness for C2: the run of `ping -4 -6 hostname`. -/
theorem both_ip_versions_rejected_witness :
    (main { initial with is_ipv4 := true, is_ipv6 := true } env_ok 4 argv_4_6).exit_code ≠ 0
    ∧ Call.probe_create
        ∉ (main { initial with is_ipv4 := true, is_ipv6 := true } env_ok 4 argv_4_6).calls
    ∧ stderr_writes (main { initial with is_ipv4 := true, is_ipv6 := true } env_ok 4 argv_4_6).calls
        = [Call.fprintf_stderr "Cannot set both ip versions\n" []] :=
  have h := both_ip_versions_rejected { initial with is_ipv4 := true, is_ipv6 := true }
    env_ok 4 argv_4_6 rfl rfl
  ⟨h.2.1, h.2.2.1, h.2.2.2.2.2 rfl rfl⟩

/-- C3: whenever `-f` is set and `-6` is not, `check_valid_flow_option`
returns false, `check_options` returns false for every value of its other
arguments, and `main` exits with a non-zero code before the probe and the loop
are created. -/
theorem flow_label_without_ipv6_rejected (s : Statics) (e : Env) (argc : Int)
    (argv : List (Option String))
    (hf : s.set_flow_label = true) (h6 : s.is_ipv6 = false) :
    (check_valid_flow_option s.is_ipv6 s.set_flow_label).1 = false
    ∧ (∀ (is_icmp is_tcp is_udp is_ipv4 : Bool) (dst_port_enabled src_port_enabled : Int)
        (protocol_name algorithm_name : Option String),
        (check_options is_icmp is_tcp is_udp is_ipv4 s.is_ipv6 s.set_flow_label
          dst_port_enabled src_port_enabled protocol_name algorithm_name).1 = false)
    ∧ (main s e argc argv).exit_code ≠ 0
    ∧ Call.probe_create ∉ (main s e argc argv).calls
    ∧ Call.pt_loop_create ∉ (main s e argc argv).calls := by
  have hall : ∀ (is_icmp is_tcp is_udp is_ipv4 : Bool)
      (dst_port_enabled src_port_enabled : Int) (protocol_name algorithm_name : Option String),
      (check_options is_icmp is_tcp is_udp is_ipv4 s.is_ipv6 s.set_flow_label
        dst_port_enabled src_port_enabled protocol_name algorithm_name).1 = false := by
    intros
    simp only [check_options, seq_and, check_valid_flow_option, hf, h6]
    split_ifs <;> simp_all
  obtain ⟨hx, hp, hl, _⟩ := main_rejected_options s e argc argv (hall _ _ _ _ _ _ _ _)
  refine ⟨by simp [check_valid_flow_option, hf, h6], hall, ?_, hp, hl⟩
  rw [hx]; decide

/-- Witness for C3: the run of `ping -4 -f ::1`. -/
theorem flow_label_without_ipv6_rejected_witness :
    (check_valid_flow_option false true).1 = false
    ∧ (main { initial with is_ipv4 := true, set_flow_label := true } env_ok 4 argv_4_f).exit_code
        ≠ 0
    ∧ Call.probe_create
        ∉ (main { initial with is_ipv4 := true, set_flow_label := true } env_ok 4 argv_4_f).calls
    ∧ Call.pt_loop_create
        ∉ (main { initial with is_ipv4 := true, set_flow_label := true } env_ok 4 argv_4_f).calls :=
  have h := flow_label_without_ipv6_rejected
    { initial with is_ipv4 := true, set_flow_label := true } env_ok 4 argv_4_f rfl rfl
  ⟨h.1, h.2.2.1, h.2.2.2.1, h.2.2.2.2⟩

/-- Formats written to stderr by lines 458-510. -/
theorem main_loop_formats (s : Statics) (e : Env) (dst_ip algorithm_name : Option String)
    (extra : List String) :
    (main_loop s e dst_ip algorithm_name).calls.all (format_in (extra ++ main_formats))
      = true := by
  unfold main_loop
  simp only [ERR_CHECK_OPTIONS, ERR_PROBE_CREATE, ERR_LOOP_CREATE, ERR_PT_LOOP]
  split_ifs <;> simp [format_in, main_formats]

/-- Formats written to stderr by lines 356-510. -/
theorem main_probe_formats (s : Statics) (e : Env) (dst_ip algorithm_name : Option String)
    (family : Int) (use_icmp use_tcp use_udp : Bool) (extra : List String) :
    (main_probe s e dst_ip algorithm_name family use_icmp use_tcp use_udp).calls.all
      (format_in (extra ++ main_formats)) = true := by
  have hl := main_loop_formats s e dst_ip algorithm_name extra
  unfold main_probe
  simp only [ERR_CHECK_OPTIONS, ERR_PROBE_CREATE, Run.after, get_ip_protocol_name,
    get_protocol_name]
  split_ifs <;>
    simp only [List.all_append, List.all_cons, List.all_nil, hl, Bool.and_true,
      Bool.true_and, List.append_nil, List.nil_append] <;>
    simp [format_in, main_formats]

/-- Formats written to stderr by lines 341-510. -/
theorem main_checked_formats (s : Statics) (e : Env)
    (dst_ip algorithm_name protocol_name : Option String) (extra : List String) :
    (main_checked s e dst_ip algorithm_name protocol_name).calls.all
      (format_in (extra ++ main_formats)) = true := by
  unfold main_checked
  simp only [select_family, ERR_CHECK_OPTIONS, ERR_PROBE_CREATE, Run.after]
  split_ifs <;>
    simp only [List.all_append, List.all_cons, List.all_nil, main_probe_formats,
      Bool.and_true, Bool.true_and, List.append_nil, List.nil_append] <;>
    simp [format_in, main_formats]

/-- Every line `main` writes to stderr with `fprintf` is a line of
`check_options` or has one of the formats of `main_formats`. -/
theorem main_stderr_formats (s : Statics) (e : Env) (argc : Int)
    (argv : List (Option String)) (format : String) (args : List String)
    (h : Call.fprintf_stderr format args ∈ (main s e argc argv).calls) :
    format ∈ (check_options s.is_icmp s.is_tcp s.is_udp s.is_ipv4 s.is_ipv6 s.set_flow_label
        s.dst_port.e3 s.src_port.e3 s.protocol_names.head? s.algorithm_names.head?).2
      ++ main_formats := by
  have hall : (main s e argc argv).calls.all (format_in
      ((check_options s.is_icmp s.is_tcp s.is_udp s.is_ipv4 s.is_ipv6 s.set_flow_label
        s.dst_port.e3 s.src_port.e3 s.protocol_names.head? s.algorithm_names.head?).2
        ++ main_formats)) = true := by
    have hc := main_checked_formats s e (last_arg argc argv) s.algorithm_names.head?
      s.protocol_names.head?
      (check_options s.is_icmp s.is_tcp s.is_udp s.is_ipv4 s.is_ipv6 s.set_flow_label
        s.dst_port.e3 s.src_port.e3 s.protocol_names.head? s.algorithm_names.head?).2
    unfold main
    simp only [init_options, ERR_CHECK_OPTIONS, Run.after]
    have hm : ∀ l : List String, (l.map stderr_line).all (format_in (l ++ main_formats))
        = true := by
      intro l
      simp only [List.all_eq_true, List.mem_map, forall_exists_index, and_imp]
      intro c m hm hc
      subst hc
      simp [stderr_line, format_in, hm]
    cases e.options_create <;>
      simp only [Bool.not_false, Bool.not_true, if_true, if_false, Bool.false_eq_true] <;>
      (try split_ifs) <;>
      simp only [List.all_append, List.all_cons, List.all_nil, hc, hm, Bool.and_true,
        Bool.true_and, List.append_nil, List.nil_append] <;>
      simp [format_in, main_formats]
  have := List.all_eq_true.mp hall _ h
  simpa [format_in] using this

/-- Each check either passes without writing or fails with its own line;
`check_options` writes at most the line of the first failing check. -/
theorem check_options_lines (is_icmp is_tcp is_udp is_ipv4 is_ipv6 set_flow_label : Bool)
    (dst_port_enabled src_port_enabled : Int) (protocol_name algorithm_name : Option String)
    (m : String)
    (h : m ∈ (check_options is_icmp is_tcp is_udp is_ipv4 is_ipv6 set_flow_label
      dst_port_enabled src_port_enabled protocol_name algorithm_name).2) :
    m = "Cannot set both ip versions\n"
    ∨ m = "E: Cannot use simultaneously icmp tcp and udp tracerouting\n"
    ∨ m = "E: Cannot use --src-port or --dst-port when using icmp tracerouting\n"
    ∨ (m = "E: Cannot set a flow label when using ipv4\n"
        ∧ is_ipv6 = false ∧ set_flow_label = true) := by
  have h1 : check_ip_version is_ipv4 is_ipv6 = (true, [])
      ∨ check_ip_version is_ipv4 is_ipv6 = (false, ["Cannot set both ip versions\n"]) := by
    cases is_ipv4 <;> cases is_ipv6 <;> simp [check_ip_version]
  have h2 : check_protocol is_icmp is_tcp is_udp protocol_name = (true, [])
      ∨ check_protocol is_icmp is_tcp is_udp protocol_name
        = (false, ["E: Cannot use simultaneously icmp tcp and udp tracerouting\n"]) := by
    cases is_icmp <;> cases is_tcp <;> cases is_udp <;> simp [check_protocol]
  have h3 : check_ports is_icmp dst_port_enabled src_port_enabled = (true, [])
      ∨ check_ports is_icmp dst_port_enabled src_port_enabled
        = (false, ["E: Cannot use --src-port or --dst-port when using icmp tracerouting\n"]) := by
    unfold check_ports
    split_ifs <;> simp
  have h4 : check_valid_flow_option is_ipv6 set_flow_label = (true, [])
      ∨ (check_valid_flow_option is_ipv6 set_flow_label
          = (false, ["E: Cannot set a flow label when using ipv4\n"])
        ∧ is_ipv6 = false ∧ set_flow_label = true) := by
    cases is_ipv6 <;> cases set_flow_label <;> simp [check_valid_flow_option]
  unfold check_options at h
  rcases h1 with h1 | h1 <;> rcases h2 with h2 | h2 <;> rcases h3 with h3 | h3 <;>
    rcases h4 with h4 | ⟨h4, h46⟩ <;>
    simp only [seq_and, h1, h2, h3, h4, if_true, if_false, Bool.false_eq_true,
      List.nil_append, List.append_nil, List.mem_singleton, List.not_mem_nil] at h <;>
    simp_all

/-- C4: the code at the input `ping -f ::1`, where neither `-4` nor `-6` is
given and the family guessed from the target is `AF_INET6` (so that lines
347-354 select `AF_INET6` on these values).  The flow-label check, which runs
before the family is selected, fails on the flag `is_ipv6` alone: its line
"Cannot set a flow label when using ipv4" is all that is written to stderr,
and `main` exits with `EXIT_FAILURE` without calling `address_guess_family` or
`probe_create`.  The claim says that such a run passes the check. -/
theorem flow_label_guessed_ipv6_rejected :
    statics_f.set_flow_label = true
    ∧ statics_f.is_ipv4 = false
    ∧ statics_f.is_ipv6 = false
    ∧ env_ok.address_guess_family = true
    ∧ env_ok.guessed_family = AF_INET6
    ∧ select_family statics_f env_ok (last_arg 3 argv_f)
        = (some AF_INET6, [Call.address_guess_family (some "::1")])
    ∧ check_valid_flow_option statics_f.is_ipv6 statics_f.set_flow_label
        = (false, ["E: Cannot set a flow label when using ipv4\n"])
    ∧ stderr_writes (main statics_f env_ok 3 argv_f).calls
        = [Call.fprintf_stderr "E: Cannot set a flow label when using ipv4\n" []]
    ∧ (main statics_f env_ok 3 argv_f).exit_code = EXIT_FAILURE
    ∧ (main statics_f env_ok 3 argv_f).calls.all not_guess_family = true
    ∧ Call.probe_create ∉ (main statics_f env_ok 3 argv_f).calls := by
  decide

/-- What the flow-label check of lines 179-186 does: it looks at the flag `-6`
alone.  With `-f` set it passes exactly when `-6` was given; in every run with
`-f` and `-6` it writes nothing, the flow-label error line is not among the
calls of `main`, and the family selected is `AF_INET6` unless `-4` was given
too.  Without `-6` the run ends before `address_guess_family` is called, so
the family guessed from the target plays no part. -/
theorem flow_label_accepted_iff_ipv6_flag (s : Statics) (e : Env) (argc : Int)
    (argv : List (Option String)) (hf : s.set_flow_label = true) :
    ((check_valid_flow_option s.is_ipv6 s.set_flow_label).1 = true ↔ s.is_ipv6 = true)
    ∧ (s.is_ipv6 = true →
        check_valid_flow_option s.is_ipv6 s.set_flow_label = (true, [])
        ∧ (∀ args, Call.fprintf_stderr "E: Cannot set a flow label when using ipv4\n" args
            ∉ (main s e argc argv).calls)
        ∧ (s.is_ipv4 = false →
            (select_family s e (last_arg argc argv)).1 = some AF_INET6))
    ∧ (s.is_ipv6 = false → ∀ d, Call.address_guess_family d ∉ (main s e argc argv).calls) := by
  refine ⟨?_, ?_, ?_⟩
  · cases h : s.is_ipv6 <;> simp [check_valid_flow_option, hf]
  · intro h6
    refine ⟨by simp [check_valid_flow_option, h6], ?_, ?_⟩
    · intro args hmem
      have hin := main_stderr_formats s e argc argv _ _ hmem
      rw [List.mem_append] at hin
      rcases hin with hin | hin
      · rcases check_options_lines _ _ _ _ _ _ _ _ _ _ _ hin with h | h | h | ⟨_, h, _⟩
        · exact absurd h (by decide)
        · exact absurd h (by decide)
        · exact absurd h (by decide)
        · rw [h6] at h
          exact absurd h (by decide)
      · simp [main_formats] at hin
    · intro h4
      simp [select_family, h4, h6]
  · intro h6 d
    have hfalse : (check_options s.is_icmp s.is_tcp s.is_udp s.is_ipv4 s.is_ipv6
        s.set_flow_label s.dst_port.e3 s.src_port.e3 s.protocol_names.head?
        s.algorithm_names.head?).1 = false := by
      simp only [check_options, seq_and, check_valid_flow_option, hf, h6]
      split_ifs <;> simp_all
    unfold main
    simp only [hfalse, init_options]
    cases e.options_create <;> simp [ERR_CHECK_OPTIONS]
    split_ifs <;> simp [stderr_line]

/-- The run of `ping -6 -f ::1`: the same target with `-6` given passes the
flow-label check and gets the family `AF_INET6`. -/
theorem flow_label_accepted_iff_ipv6_flag_witness :
    check_valid_flow_option true true = (true, [])
    ∧ (∀ args, Call.fprintf_stderr "E: Cannot set a flow label when using ipv4\n" args
        ∉ (main { initial with is_ipv6 := true, set_flow_label := true } env_ok 4 argv_6_f).calls)
    ∧ (select_family { initial with is_ipv6 := true, set_flow_label := true } env_ok
        (last_arg 4 argv_6_f)).1 = some AF_INET6 :=
  have h := (flow_label_accepted_iff_ipv6_flag
    { initial with is_ipv6 := true, set_flow_label := true } env_ok 4 argv_6_f rfl).2.1 rfl
  ⟨h.1, h.2.1, h.2.2 rfl⟩

/-- C5: `check_protocol` returns false if and only if at least two of the
flags `is_icmp`, `is_tcp`, `is_udp` are true; when it returns false,
`check_options` returns false and `main` exits with a non-zero code, and when
the IP-version check passed the line written is that of `check_protocol`. -/
theorem check_protocol_two_flags (s : Statics) (e : Env) (argc : Int)
    (argv : List (Option String)) :
    (∀ (is_icmp is_tcp is_udp : Bool) (protocol_name : Option String),
        (check_protocol is_icmp is_tcp is_udp protocol_name).1 = false
          ↔ (is_icmp = true ∧ is_tcp = true) ∨ (is_icmp = true ∧ is_udp = true)
            ∨ (is_tcp = true ∧ is_udp = true))
    ∧ (∀ (is_icmp is_tcp is_udp is_ipv4 is_ipv6 set_flow_label : Bool)
        (dst_port_enabled src_port_enabled : Int) (protocol_name algorithm_name : Option String),
        (check_protocol is_icmp is_tcp is_udp protocol_name).1 = false →
          (check_options is_icmp is_tcp is_udp is_ipv4 is_ipv6 set_flow_label
            dst_port_enabled src_port_enabled protocol_name algorithm_name).1 = false
          ∧ ((check_ip_version is_ipv4 is_ipv6).1 = true →
              (check_options is_icmp is_tcp is_udp is_ipv4 is_ipv6 set_flow_label
                dst_port_enabled src_port_enabled protocol_name algorithm_name).2
              = ["E: Cannot use simultaneously icmp tcp and udp tracerouting\n"]))
    ∧ ((check_protocol s.is_icmp s.is_tcp s.is_udp s.protocol_names.head?).1 = false →
        (main s e argc argv).exit_code = EXIT_FAILURE ∧ (main s e argc argv).exit_code ≠ 0) := by
  have h2 : ∀ (is_icmp is_tcp is_udp is_ipv4 is_ipv6 set_flow_label : Bool)
      (dst_port_enabled src_port_enabled : Int) (protocol_name algorithm_name : Option String),
      (check_protocol is_icmp is_tcp is_udp protocol_name).1 = false →
        (check_options is_icmp is_tcp is_udp is_ipv4 is_ipv6 set_flow_label
          dst_port_enabled src_port_enabled protocol_name algorithm_name).1 = false
        ∧ ((check_ip_version is_ipv4 is_ipv6).1 = true →
            (check_options is_icmp is_tcp is_udp is_ipv4 is_ipv6 set_flow_label
              dst_port_enabled src_port_enabled protocol_name algorithm_name).2
            = ["E: Cannot use simultaneously icmp tcp and udp tracerouting\n"]) := by
    intro is_icmp is_tcp is_udp is_ipv4 is_ipv6 set_flow_label dp sp pn an h
    have hmsg : (check_protocol is_icmp is_tcp is_udp pn).2
        = ["E: Cannot use simultaneously icmp tcp and udp tracerouting\n"] := by
      revert h
      cases is_icmp <;> cases is_tcp <;> cases is_udp <;> simp [check_protocol]
    have hv : (check_ip_version is_ipv4 is_ipv6).1 = true →
        (check_ip_version is_ipv4 is_ipv6).2 = [] := by
      cases is_ipv4 <;> cases is_ipv6 <;> simp [check_ip_version]
    constructor
    · simp only [check_options, seq_and, h]
      split_ifs <;> simp_all
    · intro hip
      simp only [check_options, seq_and, h, hip, hv hip, hmsg]
      simp
  refine ⟨?_, h2, ?_⟩
  · intro is_icmp is_tcp is_udp pn
    cases is_icmp <;> cases is_tcp <;> cases is_udp <;> simp [check_protocol]
  · intro h
    have hx := (main_rejected_options s e argc argv
      (h2 _ _ _ s.is_ipv4 s.is_ipv6 s.set_flow_label s.dst_port.e3 s.src_port.e3 _
        s.algorithm_names.head? h).1).1
    exact ⟨hx, by rw [hx]; decide⟩

end Ping

/-! # The option checks of ping -/

namespace Ping

/-- C15: `check_options` returns true if and only if none of the four
conflicts holds (both IP versions, two of icmp/tcp/udp, icmp with a port
option, a flow label without `-6`); when it returns false it writes exactly
one line, that of the first failing check in the order ip-version, protocol,
ports, flow-label; when it returns true it writes nothing; and the result does
not depend on `protocol_name` or `algorithm_name`. -/
theorem check_options_characterised (is_icmp is_tcp is_udp is_ipv4 is_ipv6 set_flow_label : Bool)
    (dst_port_enabled src_port_enabled : Int) (protocol_name algorithm_name : Option String) :
    ((check_options is_icmp is_tcp is_udp is_ipv4 is_ipv6 set_flow_label
        dst_port_enabled src_port_enabled protocol_name algorithm_name).1 = true
      ↔ ¬ (is_ipv4 = true ∧ is_ipv6 = true)
        ∧ (¬ (is_icmp = true ∧ is_tcp = true) ∧ ¬ (is_icmp = true ∧ is_udp = true)
          ∧ ¬ (is_tcp = true ∧ is_udp = true))
        ∧ ¬ (is_icmp = true ∧ (dst_port_enabled ≠ 0 ∨ src_port_enabled ≠ 0))
        ∧ (is_ipv6 = true ∨ set_flow_label = false))
    ∧ (check_options is_icmp is_tcp is_udp is_ipv4 is_ipv6 set_flow_label
        dst_port_enabled src_port_enabled protocol_name algorithm_name).2
      = (if is_ipv4 = true ∧ is_ipv6 = true then ["Cannot set both ip versions\n"]
        else if (is_icmp = true ∧ is_tcp = true) ∨ (is_icmp = true ∧ is_udp = true)
            ∨ (is_tcp = true ∧ is_udp = true) then
          ["E: Cannot use simultaneously icmp tcp and udp tracerouting\n"]
        else if is_icmp = true ∧ (dst_port_enabled ≠ 0 ∨ src_port_enabled ≠ 0) then
          ["E: Cannot use --src-port or --dst-port when using icmp tracerouting\n"]
        else if is_ipv6 = false ∧ set_flow_label = true then
          ["E: Cannot set a flow label when using ipv4\n"]
        else [])
    ∧ ((check_options is_icmp is_tcp is_udp is_ipv4 is_ipv6 set_flow_label
        dst_port_enabled src_port_enabled protocol_name algorithm_name).1 = true →
        (check_options is_icmp is_tcp is_udp is_ipv4 is_ipv6 set_flow_label
          dst_port_enabled src_port_enabled protocol_name algorithm_name).2 = [])
    ∧ ((check_options is_icmp is_tcp is_udp is_ipv4 is_ipv6 set_flow_label
        dst_port_enabled src_port_enabled protocol_name algorithm_name).1 = false →
        (check_options is_icmp is_tcp is_udp is_ipv4 is_ipv6 set_flow_label
          dst_port_enabled src_port_enabled protocol_name algorithm_name).2.length = 1)
    ∧ (∀ protocol_name2 algorithm_name2 : Option String,
        check_options is_icmp is_tcp is_udp is_ipv4 is_ipv6 set_flow_label
          dst_port_enabled src_port_enabled protocol_name2 algorithm_name2
        = check_options is_icmp is_tcp is_udp is_ipv4 is_ipv6 set_flow_label
          dst_port_enabled src_port_enabled protocol_name algorithm_name) := by
  have hports : ∀ b : Bool, check_ports b dst_port_enabled src_port_enabled
      = if b = true ∧ (dst_port_enabled ≠ 0 ∨ src_port_enabled ≠ 0) then
          (false, ["E: Cannot use --src-port or --dst-port when using icmp tracerouting\n"])
        else (true, []) := by
    intro b
    unfold check_ports
    cases b <;> simp
  refine ⟨?_, ?_, ?_, ?_, ?_⟩
  · simp only [check_options, seq_and, hports]
    by_cases hp : dst_port_enabled ≠ 0 ∨ src_port_enabled ≠ 0 <;>
      cases is_ipv4 <;> cases is_ipv6 <;> cases is_icmp <;> cases is_tcp <;> cases is_udp <;>
      cases set_flow_label <;>
      simp [check_ip_version, check_protocol, check_valid_flow_option, hp]
  · simp only [check_options, seq_and, hports]
    by_cases hp : dst_port_enabled ≠ 0 ∨ src_port_enabled ≠ 0 <;>
      cases is_ipv4 <;> cases is_ipv6 <;> cases is_icmp <;> cases is_tcp <;> cases is_udp <;>
      cases set_flow_label <;>
      simp [check_ip_version, check_protocol, check_valid_flow_option, hp]
  · simp only [check_options, seq_and, hports]
    by_cases hp : dst_port_enabled ≠ 0 ∨ src_port_enabled ≠ 0 <;>
      cases is_ipv4 <;> cases is_ipv6 <;> cases is_icmp <;> cases is_tcp <;> cases is_udp <;>
      cases set_flow_label <;>
      simp [check_ip_version, check_protocol, check_valid_flow_option, hp]
  · simp only [check_options, seq_and, hports]
    by_cases hp : dst_port_enabled ≠ 0 ∨ src_port_enabled ≠ 0 <;>
      cases is_ipv4 <;> cases is_ipv6 <;> cases is_icmp <;> cases is_tcp <;> cases is_udp <;>
      cases set_flow_label <;>
      simp [check_ip_version, check_protocol, check_valid_flow_option, hp]
  · intro pn2 an2
    rfl

end Ping

/-! # Family and protocol layers of the ping probe -/

namespace Ping

/-- The exit labels of ping make no call to `probe_set_protocols`. -/
theorem ERR_PT_LOOP_not_set_protocols (e : Env) :
    (ERR_PT_LOOP e).all not_set_protocols = true
    ∧ (ERR_LOOP_CREATE e).all not_set_protocols = true
    ∧ (ERR_PROBE_CREATE e).all not_set_protocols = true := by
  simp only [ERR_PT_LOOP, ERR_LOOP_CREATE, ERR_PROBE_CREATE, ERR_CHECK_OPTIONS]
  split_ifs <;> simp [not_set_protocols]

/-- Lines 458-510 make no call to `probe_set_protocols`. -/
theorem main_loop_not_set_protocols (s : Statics) (e : Env)
    (dst_ip algorithm_name : Option String) :
    (main_loop s e dst_ip algorithm_name).calls.all not_set_protocols = true := by
  obtain ⟨h1, h2, _⟩ := ERR_PT_LOOP_not_set_protocols e
  unfold main_loop
  split_ifs <;>
    simp only [List.all_append, List.all_cons, List.all_nil, h1, h2, Bool.and_true,
      Bool.true_and] <;>
    simp [not_set_protocols]

/-- The name functions make no call to `probe_set_protocols`. -/
theorem names_not_set_protocols (family : Int) (use_icmp use_tcp use_udp : Bool) :
    (get_ip_protocol_name family).2.all not_set_protocols = true
    ∧ (get_protocol_name family use_icmp use_tcp use_udp).2.all not_set_protocols = true := by
  unfold get_ip_protocol_name get_protocol_name
  constructor <;> split_ifs <;> simp [not_set_protocols]

/-- Lines 356-510 give `probe_set_protocols` the two names computed from the
family. -/
theorem main_probe_protocols (s : Statics) (e : Env) (dst_ip algorithm_name : Option String)
    (family : Int) (use_icmp use_tcp use_udp : Bool) (layers : List (Option String))
    (h : Call.probe_set_protocols layers
      ∈ (main_probe s e dst_ip algorithm_name family use_icmp use_tcp use_udp).calls) :
    layers = [(get_ip_protocol_name family).1,
      (get_protocol_name family use_icmp use_tcp use_udp).1] := by
  obtain ⟨_, _, h3⟩ := ERR_PT_LOOP_not_set_protocols e
  obtain ⟨h4, h5⟩ := names_not_set_protocols family use_icmp use_tcp use_udp
  have h6 := main_loop_not_set_protocols s e dst_ip algorithm_name
  have no : ∀ l : List Call, l.all not_set_protocols = true →
      Call.probe_set_protocols layers ∉ l := by
    intro l hl hm
    have := List.all_eq_true.mp hl _ hm
    simp [not_set_protocols] at this
  unfold main_probe at h
  split_ifs at h
  · simp only [List.mem_append, List.mem_cons, List.mem_singleton, List.not_mem_nil] at h
    rcases h with (h | h) | h
    · simp at h
    · simp at h
    · exact absurd h (no _ h3)
  · simp only [List.mem_append, List.mem_cons, List.mem_singleton, List.not_mem_nil] at h
    rcases h with ((h | h) | h) | h
    · simp at h
    · simp at h
    · simp at h
    · exact absurd h (no _ h3)
  · simp only [Run.after, List.mem_append, List.mem_cons, List.mem_singleton,
      List.not_mem_nil] at h
    rcases h with ((((h | h) | h) | h) | h) | h
    · simp at h
    · simp at h
    · exact absurd h (no _ h4)
    · exact absurd h (no _ h5)
    · simpa using h
    · exact absurd h (no _ h6)

/-- Lines 341-510 call `probe_set_protocols` only once a family is selected,
with the two names computed from it. -/
theorem main_checked_protocols (s : Statics) (e : Env)
    (dst_ip algorithm_name protocol_name : Option String) (layers : List (Option String))
    (h : Call.probe_set_protocols layers
      ∈ (main_checked s e dst_ip algorithm_name protocol_name).calls) :
    ∃ family, (select_family s e dst_ip).1 = some family
      ∧ layers = [(get_ip_protocol_name family).1,
          (get_protocol_name family (s.is_icmp || streq protocol_name "icmp")
            (s.is_tcp || streq protocol_name "tcp")
            (s.is_udp || streq protocol_name "udp")).1] := by
  obtain ⟨_, _, h3⟩ := ERR_PT_LOOP_not_set_protocols e
  have hsel : (select_family s e dst_ip).2.all not_set_protocols = true := by
    unfold select_family
    split_ifs <;> simp [not_set_protocols]
  have no : ∀ l : List Call, l.all not_set_protocols = true →
      Call.probe_set_protocols layers ∉ l := by
    intro l hl hm
    have := List.all_eq_true.mp hl _ hm
    simp [not_set_protocols] at this
  unfold main_checked at h
  cases hf : (select_family s e dst_ip).1 with
  | none =>
    simp only [hf, List.mem_append] at h
    rcases h with h | h
    · exact absurd h (no _ hsel)
    · exact absurd h (no _ h3)
  | some family =>
    simp only [hf, Run.after, List.mem_append] at h
    rcases h with h | h
    · exact absurd h (no _ hsel)
    · exact ⟨family, rfl, main_probe_protocols _ _ _ _ _ _ _ _ _ h⟩

/-- What `main` gives to `probe_set_protocols`: the two names computed from
the selected family. -/
theorem main_protocols (s : Statics) (e : Env) (argc : Int) (argv : List (Option String))
    (layers : List (Option String))
    (h : Call.probe_set_protocols layers ∈ (main s e argc argv).calls) :
    ∃ family, (select_family s e (last_arg argc argv)).1 = some family
      ∧ layers = [(get_ip_protocol_name family).1,
          (get_protocol_name family (s.is_icmp || streq s.protocol_names.head? "icmp")
            (s.is_tcp || streq s.protocol_names.head? "tcp")
            (s.is_udp || streq s.protocol_names.head? "udp")).1] := by
  unfold main at h
  simp only [init_options, ERR_CHECK_OPTIONS, Run.after] at h
  cases hc : e.options_create
  · simp [hc] at h
  · simp only [hc, Bool.not_true, Bool.false_eq_true, if_false] at h
    split_ifs at h
    · simp at h
    · simp [stderr_line] at h
    · simp only [List.mem_append] at h
      rcases h with h | h
      · simp [stderr_line] at h
      · exact main_checked_protocols _ _ _ _ _ _ h

/-- Lines 356-510 make no call to `address_guess_family`. -/
theorem main_probe_not_guess_family (s : Statics) (e : Env)
    (dst_ip algorithm_name : Option String) (family : Int) (use_icmp use_tcp use_udp : Bool) :
    (main_probe s e dst_ip algorithm_name family use_icmp use_tcp use_udp).calls.all
      not_guess_family = true := by
  have hl : (main_loop s e dst_ip algorithm_name).calls.all not_guess_family = true := by
    unfold main_loop
    simp only [ERR_PT_LOOP, ERR_LOOP_CREATE, ERR_PROBE_CREATE, ERR_CHECK_OPTIONS]
    split_ifs <;> simp [not_guess_family]
  unfold main_probe
  simp only [ERR_PROBE_CREATE, ERR_CHECK_OPTIONS, Run.after, get_ip_protocol_name,
    get_protocol_name]
  split_ifs <;>
    simp only [List.all_append, List.all_cons, List.all_nil, hl, Bool.and_true,
      Bool.true_and, List.append_nil, List.nil_append] <;>
    simp [not_guess_family]

/-- The family is guessed only when neither `-4` nor `-6` is set. -/
theorem main_guess_family (s : Statics) (e : Env) (argc : Int) (argv : List (Option String))
    (d : Option String) (h : Call.address_guess_family d ∈ (main s e argc argv).calls) :
    s.is_ipv4 = false ∧ s.is_ipv6 = false := by
  have no : ∀ l : List Call, l.all not_guess_family = true →
      Call.address_guess_family d ∉ l := by
    intro l hl hm
    have := List.all_eq_true.mp hl _ hm
    simp [not_guess_family] at this
  have herr : (ERR_PROBE_CREATE e).all not_guess_family = true := by
    simp only [ERR_PROBE_CREATE, ERR_CHECK_OPTIONS]
    split_ifs <;> simp [not_guess_family]
  have hchecked : Call.address_guess_family d
      ∈ (main_checked s e (last_arg argc argv) s.algorithm_names.head?
        s.protocol_names.head?).calls := by
    unfold main at h
    simp only [init_options, ERR_CHECK_OPTIONS, Run.after] at h
    cases hc : e.options_create
    · simp [hc] at h
    · simp only [hc, Bool.not_true, Bool.false_eq_true, if_false] at h
      split_ifs at h
      · simp at h
      · simp [stderr_line] at h
      · simp only [List.mem_append] at h
        rcases h with h | h
        · simp [stderr_line] at h
        · exact h
  have hsel : Call.address_guess_family d
      ∈ (select_family s e (last_arg argc argv)).2 := by
    unfold main_checked at hchecked
    cases hf : (select_family s e (last_arg argc argv)).1 with
    | none =>
      simp only [hf, List.mem_append] at hchecked
      rcases hchecked with h | h
      · exact h
      · exact absurd h (no _ herr)
    | some family =>
      simp only [hf, Run.after, List.mem_append] at hchecked
      rcases hchecked with h | h
      · exact h
      · exact absurd h (no _ (main_probe_not_guess_family _ _ _ _ _ _ _ _))
  unfold select_family at hsel
  cases h4 : s.is_ipv4 <;> cases h6 : s.is_ipv6 <;> simp [h4, h6] at hsel ⊢

/-- C16: in `main` of ping, with the default protocol name icmp, the family is
`AF_INET` when `-4` is set, `AF_INET6` when `-6` is set (and `-4` is not), and
is guessed from the target only when neither is set; `use_icmp` is always
true, so the two layers given to `probe_set_protocols` are ipv4 and icmpv4
for `AF_INET`, ipv6 and icmpv6 for `AF_INET6`, whatever `is_tcp` and `is_udp`
are, and both are NULL for any other family.  In `get_protocol_name` icmp has
precedence over tcp, and tcp over udp. -/
theorem family_and_icmp_layers (s : Statics) (e : Env) (argc : Int)
    (argv : List (Option String)) (hp : s.protocol_names.head? = some "icmp") :
    (s.is_ipv4 = true → ∀ d, select_family s e d = (some AF_INET, []))
    ∧ (s.is_ipv4 = false → s.is_ipv6 = true → ∀ d, select_family s e d = (some AF_INET6, []))
    ∧ (s.is_ipv4 = false → s.is_ipv6 = false → ∀ d,
        select_family s e d
          = (if e.address_guess_family = true then some e.guessed_family else none,
              [Call.address_guess_family d]))
    ∧ (∀ d, Call.address_guess_family d ∈ (main s e argc argv).calls →
        s.is_ipv4 = false ∧ s.is_ipv6 = false)
    ∧ (s.is_icmp || streq s.protocol_names.head? "icmp") = true
    ∧ (∀ layers, Call.probe_set_protocols layers ∈ (main s e argc argv).calls →
        ∃ family, (select_family s e (last_arg argc argv)).1 = some family
          ∧ layers = (if family = AF_INET then [some "ipv4", some "icmpv4"]
              else if family = AF_INET6 then [some "ipv6", some "icmpv6"]
              else [none, none]))
    ∧ (∀ use_tcp use_udp : Bool,
        (get_ip_protocol_name AF_INET).1 = some "ipv4"
        ∧ (get_protocol_name AF_INET true use_tcp use_udp).1 = some "icmpv4"
        ∧ (get_ip_protocol_name AF_INET6).1 = some "ipv6"
        ∧ (get_protocol_name AF_INET6 true use_tcp use_udp).1 = some "icmpv6")
    ∧ (∀ (family : Int) (use_tcp use_udp : Bool), family ≠ AF_INET → family ≠ AF_INET6 →
        (get_ip_protocol_name family).1 = none
        ∧ (get_protocol_name family true use_tcp use_udp).1 = none)
    ∧ (∀ (family : Int) (use_udp : Bool),
        (get_protocol_name family false true use_udp).1 = some "tcp"
        ∧ (get_protocol_name family false false true).1 = some "udp"
        ∧ (get_protocol_name family false false false).1 = none) := by
  have hicmp : (s.is_icmp || streq s.protocol_names.head? "icmp") = true := by
    simp [hp, streq]
  refine ⟨?_, ?_, ?_, main_guess_family s e argc argv, hicmp, ?_, ?_, ?_, ?_⟩
  · intro h4 d
    simp [select_family, h4]
  · intro h4 h6 d
    simp [select_family, h4, h6]
  · intro h4 h6 d
    cases hg : e.address_guess_family <;> simp [select_family, h4, h6, hg]
  · intro layers hl
    obtain ⟨family, hf, hlay⟩ := main_protocols s e argc argv layers hl
    refine ⟨family, hf, ?_⟩
    rw [hlay, hicmp]
    unfold get_ip_protocol_name get_protocol_name
    split_ifs <;> simp_all
  · intro use_tcp use_udp
    simp [get_ip_protocol_name, get_protocol_name, AF_INET, AF_INET6]
  · intro family use_tcp use_udp h1 h2
    simp [get_ip_protocol_name, get_protocol_name, h1, h2]
  · intro family use_udp
    simp [get_protocol_name]

/-- Witness for C16: the run of `ping -4 127.0.0.1` gives the layers ipv4 and
icmpv4 to `probe_set_protocols`. -/
theorem family_and_icmp_layers_witness :
    statics_4.protocol_names.head? = some "icmp"
    ∧ select_family statics_4 env_ok (last_arg 3 argv_4) = (some AF_INET, [])
    ∧ Call.probe_set_protocols [some "ipv4", some "icmpv4"]
        ∈ (main statics_4 env_ok 3 argv_4).calls
    ∧ (∀ layers, Call.probe_set_protocols layers ∈ (main statics_4 env_ok 3 argv_4).calls →
        ∃ family, (select_family statics_4 env_ok (last_arg 3 argv_4)).1 = some family
          ∧ layers = (if family = AF_INET then [some "ipv4", some "icmpv4"]
              else if family = AF_INET6 then [some "ipv6", some "icmpv6"]
              else [none, none])) :=
  have h := family_and_icmp_layers statics_4 env_ok 3 argv_4 rfl
  ⟨rfl, h.1 rfl _, by decide, h.2.2.2.2.2.1⟩

end Ping

/-! # Exit codes of the two front-ends -/

namespace ParisTraceroute

/-- Exit code of lines 257-295 of paris-traceroute. -/
theorem main_loop_exit_code (e : Env) (a : Option String) (o : AlgOptions) :
    (main_loop e a o).exit_code
      = if e.pt_loop_create = true ∧ e.pt_algorithm_add = true ∧ 0 ≤ e.pt_loop
        then EXIT_SUCCESS else EXIT_FAILURE := by
  unfold main_loop
  cases e.pt_loop_create <;> cases e.pt_algorithm_add <;> simp
  split_ifs <;> first | rfl | omega

/-- Exit code of lines 225-295 of paris-traceroute. -/
theorem main_algorithm_exit_code (s : Statics) (e : Env) :
    (main_algorithm s e s.algorithm_names.head? e.dst_ip).exit_code
      = if (selected_options s e).isSome = true ∧ e.pt_loop_create = true
          ∧ e.pt_algorithm_add = true ∧ 0 ≤ e.pt_loop
        then EXIT_SUCCESS else EXIT_FAILURE := by
  unfold main_algorithm selected_options
  cases hc : check_mda s.mda.e6 s.algorithm_names.head? with
  | none => simp
  | some a =>
    cases hd : dedicated_options s e a e.dst_ip with
    | none => simp [hd]
    | some p =>
      obtain ⟨getters, options⟩ := p
      simp [hd, Run.after, main_loop_exit_code]

/-- The exit code of paris-traceroute: `EXIT_SUCCESS` exactly when every step
succeeds. -/
theorem main_exit_code (s : Statics) (e : Env) (argc : Int) (argv : List (Option String)) :
    (main s e argc argv).exit_code
      = if e.opt_parse = 1 ∧ e.malloc = true ∧ e.address_from_string = 0
          ∧ e.address_to_string = 0 ∧ e.probe_create = true
          ∧ (selected_options s e).isSome = true ∧ e.pt_loop_create = true
          ∧ e.pt_algorithm_add = true ∧ 0 ≤ e.pt_loop
        then EXIT_SUCCESS else EXIT_FAILURE := by
  unfold main
  by_cases h1 : e.opt_parse = 1
  swap
  · simp [h1]
  by_cases h2 : e.malloc = true
  swap
  · simp [h1, h2]
  by_cases h3 : e.address_from_string = 0
  swap
  · simp [h1, h2, h3]
  by_cases h4 : e.address_to_string = 0
  swap
  · simp [h1, h2, h3, h4]
  by_cases h5 : e.probe_create = true
  swap
  · simp [h1, h2, h3, h4, h5, main_probe, Run.after]
  simp [h1, h2, h3, h4, h5, main_probe, Run.after, main_algorithm_exit_code]

/-- The algorithm selection of lines 225-255 succeeds exactly when: with
`-M`, the name is mda (or absent); without `-M`, the name is one of mda,
traceroute and paris-traceroute. -/
theorem selected_options_isSome (s : Statics) (e : Env) :
    (selected_options s e).isSome = true
      ↔ (s.mda.e6 ≠ 0 ∧
          (s.algorithm_names.head? = none ∨ s.algorithm_names.head? = some "mda"))
        ∨ (s.mda.e6 = 0 ∧
          (s.algorithm_names.head? = some "mda"
            ∨ s.algorithm_names.head? = some "traceroute"
            ∨ s.algorithm_names.head? = some "paris-traceroute")) := by
  unfold selected_options check_mda dedicated_options
  by_cases h6 : s.mda.e6 = 0
  · cases ha : s.algorithm_names.head? with
    | none => simp [h6, streq]
    | some a =>
      by_cases h1 : a = "traceroute"
      · simp [h6, streq, h1]
      by_cases h2 : a = "paris-traceroute"
      · simp [h6, streq, h2]
      by_cases h3 : a = "mda"
      · simp [h6, streq, h3]
      simp [h6, streq, h1, h2, h3]
  · cases ha : s.algorithm_names.head? with
    | none => simp [h6, streq]
    | some a =>
      by_cases h3 : a = "mda"
      · simp [h6, streq, h3]
      · simp [h6, streq, h3]

end ParisTraceroute

namespace Ping

/-- Exit code of lines 458-510 of ping. -/
theorem ping_main_loop_exit_code (s : Statics) (e : Env) (dst_ip algorithm_name : Option String) :
    (main_loop s e dst_ip algorithm_name).exit_code
      = if e.pt_loop_create = true ∧ e.pt_algorithm_add = true ∧ 0 ≤ e.pt_loop
        then EXIT_SUCCESS else EXIT_FAILURE := by
  unfold main_loop
  cases e.pt_loop_create <;> cases e.pt_algorithm_add <;> simp
  split_ifs <;> first | rfl | omega

/-- Exit code of lines 356-510 of ping. -/
theorem ping_main_probe_exit_code (s : Statics) (e : Env) (dst_ip algorithm_name : Option String)
    (family : Int) (use_icmp use_tcp use_udp : Bool) :
    (main_probe s e dst_ip algorithm_name family use_icmp use_tcp use_udp).exit_code
      = if e.address_from_string = 0 ∧ e.probe_create = true ∧ e.pt_loop_create = true
          ∧ e.pt_algorithm_add = true ∧ 0 ≤ e.pt_loop
        then EXIT_SUCCESS else EXIT_FAILURE := by
  unfold main_probe
  by_cases h1 : e.address_from_string = 0
  swap
  · simp [h1]
  cases h2 : e.probe_create
  · simp [h1]
  · simp [h1, Run.after, ping_main_loop_exit_code]

/-- Exit code of lines 341-510 of ping. -/
theorem ping_main_checked_exit_code (s : Statics) (e : Env)
    (dst_ip algorithm_name protocol_name : Option String) :
    (main_checked s e dst_ip algorithm_name protocol_name).exit_code
      = if (s.is_ipv4 = true ∨ s.is_ipv6 = true ∨ e.address_guess_family = true)
          ∧ e.address_from_string = 0 ∧ e.probe_create = true ∧ e.pt_loop_create = true
          ∧ e.pt_algorithm_add = true ∧ 0 ≤ e.pt_loop
        then EXIT_SUCCESS else EXIT_FAILURE := by
  unfold main_checked select_family
  cases s.is_ipv4 <;> cases s.is_ipv6 <;> cases e.address_guess_family <;>
    simp [Run.after, ping_main_probe_exit_code]

/-- The exit code of ping: `EXIT_SUCCESS` exactly when every step succeeds. -/
theorem ping_main_exit_code (s : Statics) (e : Env) (argc : Int) (argv : List (Option String)) :
    (main s e argc argv).exit_code
      = if e.options_create = true ∧ e.options_parse = 1
          ∧ (check_options s.is_icmp s.is_tcp s.is_udp s.is_ipv4 s.is_ipv6 s.set_flow_label
              s.dst_port.e3 s.src_port.e3 s.protocol_names.head?
              s.algorithm_names.head?).1 = true
          ∧ (s.is_ipv4 = true ∨ s.is_ipv6 = true ∨ e.address_guess_family = true)
          ∧ e.address_from_string = 0 ∧ e.probe_create = true ∧ e.pt_loop_create = true
          ∧ e.pt_algorithm_add = true ∧ 0 ≤ e.pt_loop
        then EXIT_SUCCESS else EXIT_FAILURE := by
  unfold main
  simp only [init_options]
  cases h0 : e.options_create
  · simp
  by_cases h1 : e.options_parse = 1
  swap
  · simp [h1]
  cases h2 : (check_options s.is_icmp s.is_tcp s.is_udp s.is_ipv4 s.is_ipv6 s.set_flow_label
      s.dst_port.e3 s.src_port.e3 s.protocol_names.head? s.algorithm_names.head?).1
  · simp [h1]
  · simp [h1, Run.after, ping_main_checked_exit_code]

end Ping

/-- C9: for both front-ends, with each library call a step that succeeds or
fails, the exit code is `EXIT_SUCCESS` if and only if every step succeeded
(option parsing, allocation, address parsing, probe creation, option checking
or algorithm selection, loop creation, instance creation) and `pt_loop`
returned a non-negative value; in every other run it is `EXIT_FAILURE`.
For paris-traceroute the algorithm selection succeeds when the name is mda (or
absent) with `-M`, and one of the three known names without `-M`; for ping the
family is guessed only when neither `-4` nor `-6` is set. -/
theorem exit_code_success_iff_all_steps
    (s : ParisTraceroute.Statics) (e : ParisTraceroute.Env)
    (sp : Ping.Statics) (ep : Ping.Env) (argc : Int) (argv : List (Option String)) :
    ((ParisTraceroute.main s e argc argv).exit_code = ParisTraceroute.EXIT_SUCCESS
      ↔ e.opt_parse = 1 ∧ e.malloc = true ∧ e.address_from_string = 0
        ∧ e.address_to_string = 0 ∧ e.probe_create = true
        ∧ ((s.mda.e6 ≠ 0 ∧
              (s.algorithm_names.head? = none ∨ s.algorithm_names.head? = some "mda"))
            ∨ (s.mda.e6 = 0 ∧
              (s.algorithm_names.head? = some "mda"
                ∨ s.algorithm_names.head? = some "traceroute"
                ∨ s.algorithm_names.head? = some "paris-traceroute")))
        ∧ e.pt_loop_create = true ∧ e.pt_algorithm_add = true ∧ 0 ≤ e.pt_loop)
    ∧ ((ParisTraceroute.main s e argc argv).exit_code = ParisTraceroute.EXIT_SUCCESS
      ∨ (ParisTraceroute.main s e argc argv).exit_code = ParisTraceroute.EXIT_FAILURE)
    ∧ ((Ping.main sp ep argc argv).exit_code = Ping.EXIT_SUCCESS
      ↔ ep.options_create = true ∧ ep.options_parse = 1
        ∧ (Ping.check_options sp.is_icmp sp.is_tcp sp.is_udp sp.is_ipv4 sp.is_ipv6
            sp.set_flow_label sp.dst_port.e3 sp.src_port.e3 sp.protocol_names.head?
            sp.algorithm_names.head?).1 = true
        ∧ (sp.is_ipv4 = true ∨ sp.is_ipv6 = true ∨ ep.address_guess_family = true)
        ∧ ep.address_from_string = 0 ∧ ep.probe_create = true ∧ ep.pt_loop_create = true
        ∧ ep.pt_algorithm_add = true ∧ 0 ≤ ep.pt_loop)
    ∧ ((Ping.main sp ep argc argv).exit_code = Ping.EXIT_SUCCESS
      ∨ (Ping.main sp ep argc argv).exit_code = Ping.EXIT_FAILURE)
    ∧ ParisTraceroute.EXIT_SUCCESS ≠ ParisTraceroute.EXIT_FAILURE
    ∧ Ping.EXIT_SUCCESS ≠ Ping.EXIT_FAILURE := by
  rw [ParisTraceroute.main_exit_code, Ping.ping_main_exit_code,
    ← ParisTraceroute.selected_options_isSome s e]
  refine ⟨?_, ?_, ?_, ?_, by decide, by decide⟩
  · split_ifs with h
    · simp [h]
    · simp [h, ParisTraceroute.EXIT_SUCCESS, ParisTraceroute.EXIT_FAILURE]
  · split_ifs <;> simp
  · split_ifs with h
    · simp [h]
    · simp [h, Ping.EXIT_SUCCESS, Ping.EXIT_FAILURE]
  · split_ifs <;> simp

